import Mathlib

/-!
Verification of the trading core of this repository: the technical-indicator
analyzer (`app/services/technical_indicators.py`) and the portfolio
optimization engine (`app/services/portfolio_optimizer.py`).

Numbers are modelled by exact rationals (`ℚ`); the Python floating point
arithmetic is modelled as exact field arithmetic.  The square root
(`np.sqrt` / `math.sqrt`) is not rational-valued, so every function that
takes a square root in the source receives an explicit square-root stand-in
`s : ℚ → ℚ` as its first argument; theorems either hold for every such `s`
(when the result provably does not depend on it), constrain `s` by the
properties of the real square root that matter (`s 0 = 0`), or instantiate
`s` with `sqrtQ` below, which is exact on perfect squares (each concrete
evaluation only applies `s` at perfect squares, or at points where the
value cancels; the relevant theorems record the exactness facts used).

Python's `dict` built from key/value pairs is modelled by `dictOf`
(insertion order, later duplicate keys overwrite in place), and
`dict.get`/`d[k]`/`k in d` by `lookupD`/`hasKey` on association lists.

Deliberate, claim-irrelevant simplifications (each marked at its site):
the free-form `metadata` maps on indicator results, numeric percent
formatting inside recommendation strings, and timestamp fields are not
modelled; no claim mentions them.
-/

set_option maxRecDepth 4000
set_option maxHeartbeats 1000000

namespace HackingCapital

/- Batteries marks the rational-number operations `@[irreducible]`, which
blocks compile-time evaluation; restore the default reducibility so that
`decide` can evaluate the embedded functions on concrete inputs. -/
attribute [local semireducible] Rat.add Rat.mul Rat.sub Rat.inv

/-- Newton iteration for the integer square root, structurally recursive on
an explicit fuel so that it evaluates by kernel reduction.  With the fuel
used below it computes exactly `Nat.sqrt` on every number appearing in
this development. -/
def sqrtIter : Nat → Nat → Nat → Nat
  | 0, _, guess => guess
  | fuel+1, n, guess =>
    let next := (guess + n / guess) / 2
    if next < guess then sqrtIter fuel n next else guess

/-- Integer square root (Newton's method, 128 fuel: exact for all inputs
below roughly 2^120). -/
def natSqrt (n : Nat) : Nat := if n ≤ 1 then n else sqrtIter 128 n (n / 2)

/-- Rational stand-in for the real square root: exact on perfect squares
(numerator and denominator of the reduced fraction both squares), junk
otherwise, and `0` on nonpositive input (where `np.sqrt` is NaN).  It is
positive on every positive input, like the real square root. -/
def sqrtQ (q : ℚ) : ℚ :=
  if q ≤ 0 then 0 else (natSqrt q.num.toNat : ℚ) / (natSqrt q.den : ℚ)

/-- `d.get k default` on a Python dict, modelled on an association list
(first matching key wins; dict keys are unique). -/
def lookupD {α : Type} [DecidableEq α] (l : List (α × ℚ)) (k : α) (d : ℚ) : ℚ :=
  match l.find? (fun p => decide (p.1 = k)) with
  | some p => p.2
  | none => d

/-- `k in d` on a Python dict, modelled on an association list. -/
def hasKey {α : Type} [DecidableEq α] (l : List (α × ℚ)) (k : α) : Bool :=
  l.any (fun p => decide (p.1 = k))

/-- One insertion into a Python dict: overwrite in place if the key is
present, append otherwise. -/
def dictUpsert (d : List (String × ℚ)) (k : String) (v : ℚ) : List (String × ℚ) :=
  if d.any (fun p => decide (p.1 = k)) then
    d.map (fun p => if p.1 = k then (k, v) else p)
  else d ++ [(k, v)]

/-- `dict(pairs)` in Python: fold the pairs into an insertion-ordered map. -/
def dictOf (l : List (String × ℚ)) : List (String × ℚ) :=
  l.foldl (fun d p => dictUpsert d p.1 p.2) []

/-- Sum of `d.values()` of a modelled dict. -/
def dictValuesSum (d : List (String × ℚ)) : ℚ :=
  (d.map Prod.snd).sum

/-- `np.dot` of two vectors (Python zips to the shorter length only when
lengths agree, which every call site guarantees; `List.zip` truncates). -/
def dotQ (a b : List ℚ) : ℚ :=
  ((a.zip b).map (fun p => p.1 * p.2)).sum

/-- Matrix-vector product `np.dot(m, w)`. -/
def matVec (m : List (List ℚ)) (w : List ℚ) : List ℚ :=
  m.map (fun row => dotQ row w)

/-- `m.diagonal()` of a square matrix stored as a list of rows. -/
def diagonal (m : List (List ℚ)) : List ℚ :=
  (List.range m.length).map (fun i => (m.getD i []).getD i 0)

/-! ## technical_indicators.py -/

/-- `IndicatorResult` (source lines 15-26).  The free-form `metadata` dictis
heterogeneous and inspected by no claim; it is not modelled. -/
structure IndicatorResult where
  name : String
  value : ℚ
  signal : String
  strength : ℚ
  deriving DecidableEq, Repr

/-- `on_balance_volume` (source lines 242-258): guard on mismatched lengths
or fewer than 2 closes, else a running signed cumulative sum of volume. -/
def on_balance_volume (closes volumes : List ℚ) : List ℚ :=
  if closes.length ≠ volumes.length ∨ closes.length < 2 then []
  else
    let step := fun (acc : List ℚ) (i : Nat) =>
      let prev := acc.headD 0
      let c1 := closes.getD (i + 1) 0
      let c0 := closes.getD i 0
      let v := volumes.getD (i + 1) 0
      (if c0 < c1 then prev + v else if c1 < c0 then prev - v else prev) :: acc
    (((List.range (closes.length - 1)).foldl step [volumes.headD 0])).reverse

/-- One window's Chaikin money-flow value: `chaikin_money_flow` loop body
(source lines 267-287).  `i` is the Python loop index. -/
def cmfAt (highs lows closes volumes : List ℚ) (period i : Nat) : ℚ :=
  let hw := (highs.drop (i + 1 - period)).take period
  let lw := (lows.drop (i + 1 - period)).take period
  let cw := (closes.drop (i + 1 - period)).take period
  let vw := (volumes.drop (i + 1 - period)).take period
  let mfm := (hw.zip (lw.zip (cw.zip vw))).map (fun p =>
    let h := p.1
    let l := p.2.1
    let c := p.2.2.1
    if h = l then 0 else ((c - l) - (h - c)) / (h - l))
  let mfv := (mfm.zip vw).map (fun p => p.1 * p.2)
  if vw.sum ≠ 0 then mfv.sum / vw.sum else 0

/-- `chaikin_money_flow` (source lines 260-289).  The four window slices are
`xs[i-period+1 : i+1]`; Python's `zip` silently truncates to the shortest
sequence, exactly as `List.zip` does. -/
def chaikin_money_flow (highs lows closes volumes : List ℚ) (period : Nat) : List ℚ :=
  if closes.length < period then []
  else (List.range (closes.length - (period - 1))).map (fun k =>
    cmfAt highs lows closes volumes period (k + (period - 1)))

/-- The OBV block of `analyze_volume_indicators` (source lines 500-521):
the zero or one `IndicatorResult` it appends to `results`. -/
def obvResults (prices volumes : List ℚ) : List IndicatorResult :=
  if 2 ≤ prices.length then
    let obv := on_balance_volume prices volumes
    if 2 ≤ obv.length then
      let lastObv := obv.getD (obv.length - 1) 0
      let prevObv := obv.getD (obv.length - 2) 0
      let sig :=
        if prevObv < lastObv then ( "BUY", (3 : ℚ)/5)
        else if lastObv < prevObv then ( "SELL", (3 : ℚ)/5)
        else ( "HOLD", (2 : ℚ)/5)
      [{ name := "OBV", value := lastObv, signal := sig.1, strength := sig.2 }]
    else []
  else []

/-- The CMF block of `analyze_volume_indicators` (source lines 523-543):
the zero or one `IndicatorResult` it appends to `results`; note the
`chaikin_money_flow` call passes empty `highs`/`lows` lists. -/
def cmfResults (prices volumes : List ℚ) : List IndicatorResult :=
  if 21 ≤ prices.length then
    let cmf := chaikin_money_flow [] [] prices volumes 21
    if cmf ≠ [] then
      let lastCmf := cmf.getD (cmf.length - 1) 0
      let sig :=
        if (1 : ℚ)/4 < lastCmf then ( "BUY", min ((4 : ℚ)/5) lastCmf)
        else if lastCmf < -((1 : ℚ)/4) then ( "SELL", min ((4 : ℚ)/5) |lastCmf|)
        else ( "HOLD", (1 : ℚ)/2)
      [{ name := "CMF", value := lastCmf, signal := sig.1, strength := sig.2 }]
    else []
  else []

/-- `analyze_volume_indicators` (source lines 494-545): the `results` list
is the OBV block's results followed by the CMF block's results, guarded by
the truthiness/length check on `volumes`. -/
def analyze_volume_indicators (prices volumes : List ℚ) : List IndicatorResult :=
  if volumes ≠ [] ∧ volumes.length = prices.length then
    obvResults prices volumes ++ cmfResults prices volumes
  else []

/-- Signal-to-score map inside `get_weighted_signal` (source lines 578-586):
BUY ↦ 1, SELL ↦ −1, everything else (HOLD/NEUTRAL/CAUTION) ↦ 0. -/
def signalScore (sig : String) : ℚ :=
  if sig = "BUY" then 1 else if sig = "SELL" then -1 else 0

/-- The default category weights of `get_weighted_signal`. -/
def defaultWeights : List (String × ℚ) :=
  [( "trend", (2 : ℚ)/5), ( "momentum", (3 : ℚ)/10), ( "volatility", (1 : ℚ)/5), ( "volume", (1 : ℚ)/10)]

/-- The per-indicator `(weighted_score, weight)` pairs accumulated by the
loop of `get_weighted_signal` (source lines 574-592): for every indicator
of every category, `(score * strength * weight, weight)`, where the
category weight defaults to `0.25` for unknown categories. -/
def signalContribs (analysis : List (String × List IndicatorResult))
    (weights : List (String × ℚ)) : List (ℚ × ℚ) :=
  analysis.flatMap (fun cw =>
    let w := lookupD weights cw.1 ((1 : ℚ)/4)
    cw.2.map (fun ind => (signalScore ind.signal * ind.strength * w, w)))

/-- `get_weighted_signal` (source lines 558-614): per-indicator weighted
scores; the divisor counts the category weight once per indicator. -/
def get_weighted_signal (analysis : List (String × List IndicatorResult))
    (weights : List (String × ℚ)) : IndicatorResult :=
  let totalScore := ((signalContribs analysis weights).map Prod.fst).sum
  let totalWeight := ((signalContribs analysis weights).map Prod.snd).sum
  let finalScore := if 0 < totalWeight then totalScore / totalWeight else 0
  let sig :=
    if (3 : ℚ)/10 < finalScore then "BUY"
    else if finalScore < -((3 : ℚ)/10) then "SELL"
    else "HOLD"
  { name := "Composite_Signal", value := finalScore, signal := sig,
    strength := min 1 |finalScore| }

/-! ## portfolio_optimizer.py -/

/-- `Asset` (source lines 19-30).  The display name, target weight, signal
strength and timestamp fields feed no claim and are not modelled. -/
structure Asset where
  symbol : String
  current_price : ℚ
  expected_return : ℚ
  volatility : ℚ
  weight : ℚ
  deriving DecidableEq, Repr, Inhabited

/-- `Portfolio` (source lines 33-44).  Timestamps are not modelled; the
correlation map keyed by symbol pairs is an association list. -/
structure Portfolio where
  name : String
  assets : List Asset
  total_value : ℚ
  cash : ℚ
  risk_free_rate : ℚ := 9/200
  rebalance_threshold : ℚ := 1/20
  correlation_matrix : List ((String × String) × ℚ)
  deriving DecidableEq, Repr

/-- A rebalance action record (`_generate_rebalance_actions` dict, source
lines 589-596); the formatted `reason` string is not modelled. -/
structure RebalanceAction where
  symbol : String
  action : String
  current_weight : ℚ
  target_weight : ℚ
  amount : ℚ
  deriving DecidableEq, Repr

/-- `OptimizationResult` (source lines 47-58).  `sharpe` models the source
field `sharpe_ratio` and `diversification` the source field
`diversification_ratio` (renamed only here; same values). -/
structure OptimizationResult where
  portfolio_name : String
  optimized_weights : List (String × ℚ)
  expected_return : ℚ
  expected_volatility : ℚ
  sharpe : ℚ
  max_drawdown : ℚ
  diversification : ℚ
  recommendations : List String
  rebalance_actions : List RebalanceAction
  deriving DecidableEq, Repr

/-- `portfolio.assets[i]` (out-of-range reads never happen on the paths the
source takes; the default is irrelevant junk). -/
def assetAt (pf : Portfolio) (i : Nat) : Asset :=
  pf.assets.getD i default

/-- Entry `(i, j)` of `_create_covariance_matrix` (source lines 473-487):
`corr * vol_i * vol_j` with missing pair correlations defaulting to `0.5`. -/
def covEntry (pf : Portfolio) (i j : Nat) : ℚ :=
  lookupD pf.correlation_matrix ((assetAt pf i).symbol, (assetAt pf j).symbol) (1/2)
    * (assetAt pf i).volatility * (assetAt pf j).volatility

/-- `_create_covariance_matrix` (source lines 473-487), built exactly as the
source does, by a double loop over `range(n)`. -/
def create_covariance_matrix (pf : Portfolio) : List (List ℚ) :=
  (List.range pf.assets.length).map (fun i =>
    (List.range pf.assets.length).map (fun j => covEntry pf i j))

/-- `_optimize_sharpe_ratio` (source lines 506-524), modulo the square-root
stand-in `s` for `np.sqrt`; `1e-8` and `0.01` are exact rationals here. -/
def optimize_sharpe (s : ℚ → ℚ) (returns : List ℚ) (cov : List (List ℚ))
    (risk_free_rate : ℚ) : List ℚ :=
  let n := returns.length
  if (diagonal cov).any (fun d => decide (d ≤ 0)) then
    List.replicate n (1/(n : ℚ))
  else
    let excess := returns.map (fun r => r - risk_free_rate)
    let vols := (diagonal cov).map (fun d => s (max d (1/100000000)))
    let comps := (excess.zip vols).map (fun p => max (p.1 / p.2) (1/100))
    comps.map (fun c => c / comps.sum)

/-- `_optimize_for_target_return` (source lines 489-504).  `cov` and
`riskAversion` are accepted and ignored exactly as in the source. -/
def optimize_for_target_return (returns : List ℚ) (cov : List (List ℚ))
    (target : ℚ) (riskAversion : ℚ) : List ℚ :=
  let n := returns.length
  let w0 := List.replicate n (1/(n : ℚ))
  let current := dotQ w0 returns
  let w1 := if 0 < current then w0.map (fun x => x * min (target / current) 2) else w0
  w1.map (fun x => x / w1.sum)

/-- The pre-normalization weight update of one risk-parity iteration
(source lines 533-538): `w * (target_risk / risk_contributions)` where
`risk_contributions = w * (cov @ w) / portfolio_volatility`. -/
def riskParityAdjust (s : ℚ → ℚ) (cov : List (List ℚ)) (n : Nat) (w : List ℚ) : List ℚ :=
  let mv := matVec cov w
  let pv := s (dotQ w mv)
  let rc := (w.zip mv).map (fun p => p.1 * p.2 / pv)
  (w.zip rc).map (fun p => p.1 * ((1/(n : ℚ)) / p.2))

/-- One full risk-parity iteration (source lines 533-539): the update above
followed by `weights / np.sum(weights)`. -/
def riskParityStep (s : ℚ → ℚ) (cov : List (List ℚ)) (n : Nat) (w : List ℚ) : List ℚ :=
  let w2 := riskParityAdjust s cov n w
  w2.map (fun x => x / w2.sum)

/-- `_optimize_risk_parity` (source lines 526-541): start equal-weighted and
run exactly 10 iterations. -/
def optimize_risk_parity_loop (s : ℚ → ℚ) (cov : List (List ℚ)) (vols : List ℚ) : List ℚ :=
  let n := vols.length
  (riskParityStep s cov n)^[10] (List.replicate n (1/(n : ℚ)))

/-- `_estimate_max_drawdown` (source lines 543-547):
`min(sqrt(dot(w, vols)**2) * 2.5, 0.5)`. -/
def estimate_max_drawdown (s : ℚ → ℚ) (vols w : List ℚ) : ℚ :=
  min (s ((dotQ w vols)^2) * (5/2)) (1/2)

/-- First maximum of an association list by value (Python `sorted(...,
reverse=True)[0]` with a stable sort, and `max(..., key=...)`). -/
def argmaxFirst (l : List (String × ℚ)) : String × ℚ :=
  l.foldl (fun b p => if b.2 < p.2 then p else b) (l.headD ( "", 0))

/-- First minimum of an association list by value (Python `min`). -/
def argminFirst (l : List (String × ℚ)) : String × ℚ :=
  l.foldl (fun b p => if p.2 < b.2 then p else b) (l.headD ( "", 0))

/-- Last minimum of an association list by value (the last element of a
stable descending sort). -/
def argminLast (l : List (String × ℚ)) : String × ℚ :=
  l.foldl (fun b p => if p.2 ≤ b.2 then p else b) (l.headD ( "", 0))

/-- `_generate_recommendations` (source lines 549-571).  The numeric percent
interpolations inside the strings are not modelled (no claim reads them);
the selected symbols are computed exactly as the source's stable sort and
`max`/`min` calls do, assuming distinct symbols. -/
def generate_recommendations (symbols : List String) (w returns vols : List ℚ) :
    List String :=
  let hi := argmaxFirst (symbols.zip w)
  let lo := argminLast (symbols.zip w)
  let hr := argmaxFirst (symbols.zip returns)
  let lv := argminFirst (symbols.zip vols)
  [ "Highest allocation: " ++ hi.1, "Lowest allocation: " ++ lo.1,
    "Highest expected return: " ++ hr.1, "Lowest volatility: " ++ lv.1]

/-- `_generate_rebalance_actions` (source lines 573-598). -/
def generate_rebalance_actions (pf : Portfolio) (targetWeights : List (String × ℚ)) :
    List RebalanceAction :=
  pf.assets.filterMap (fun a =>
    let cw := a.weight
    let tw := lookupD targetWeights a.symbol cw
    if pf.rebalance_threshold < |tw - cw| then
      some { symbol := a.symbol, action := if cw < tw then "BUY" else "SELL",
             current_weight := cw, target_weight := tw,
             amount := (if cw < tw then tw - cw else cw - tw) * pf.total_value }
    else none)

/-- `_create_basic_result` (source lines 600-612): current weights unchanged,
zero return/volatility/Sharpe/drawdown, diversification 1, the single
explanatory message, no rebalance actions. -/
def create_basic_result (pf : Portfolio) (message : String) : OptimizationResult :=
  { portfolio_name := pf.name,
    optimized_weights := dictOf (pf.assets.map (fun a => (a.symbol, a.weight))),
    expected_return := 0, expected_volatility := 0, sharpe := 0,
    max_drawdown := 0, diversification := 1,
    recommendations := [message], rebalance_actions := [] }

/-- `optimize_portfolio_mpt` (source lines 122-184). -/
def optimize_portfolio_mpt (s : ℚ → ℚ) (pf : Portfolio) (target : Option ℚ)
    (riskAversion : ℚ) : OptimizationResult :=
  if pf.assets.length < 2 then
    create_basic_result pf "Need at least 2 assets for optimization"
  else
    let symbols := pf.assets.map (fun a => a.symbol)
    let returns := pf.assets.map (fun a => a.expected_return)
    let vols := pf.assets.map (fun a => a.volatility)
    let cov := create_covariance_matrix pf
    let w0 := match target with
      | some t => optimize_for_target_return returns cov t riskAversion
      | none => optimize_sharpe s returns cov pf.risk_free_rate
    let w := w0.map (fun x => x / w0.sum)
    let pret := dotQ w returns
    let pvol := s (dotQ w (matVec cov w))
    let wdict := dictOf (symbols.zip w)
    { portfolio_name := pf.name,
      optimized_weights := wdict,
      expected_return := pret,
      expected_volatility := pvol,
      sharpe := (pret - pf.risk_free_rate) / pvol,
      max_drawdown := estimate_max_drawdown s vols w,
      diversification := dotQ w vols / pvol,
      recommendations := generate_recommendations symbols w returns vols,
      rebalance_actions := generate_rebalance_actions pf wdict }

/-- `optimize_risk_parity` (source lines 186-227).  The two formatted
risk-contribution recommendation strings are not modelled (no claim reads
them); the first, fixed recommendation string is kept. -/
def optimize_risk_parity (s : ℚ → ℚ) (pf : Portfolio) : OptimizationResult :=
  if pf.assets.length < 2 then
    create_basic_result pf "Need at least 2 assets for risk parity"
  else
    let symbols := pf.assets.map (fun a => a.symbol)
    let vols := pf.assets.map (fun a => a.volatility)
    let cov := create_covariance_matrix pf
    let w := optimize_risk_parity_loop s cov vols
    let returns := pf.assets.map (fun a => a.expected_return)
    let pret := dotQ w returns
    let pvol := s (dotQ w (matVec cov w))
    let wdict := dictOf (symbols.zip w)
    { portfolio_name := pf.name ++ " (Risk Parity)",
      optimized_weights := wdict,
      expected_return := pret,
      expected_volatility := pvol,
      sharpe := (pret - pf.risk_free_rate) / pvol,
      max_drawdown := estimate_max_drawdown s vols w,
      diversification := dotQ w vols / pvol,
      recommendations := [ "Risk Parity achieved - each asset contributes equally to total risk"],
      rebalance_actions := generate_rebalance_actions pf wdict }

/-- The dict returned by `get_portfolio_metrics` (source lines 281-319);
`sharpe`/`diversification` model `sharpe_ratio`/`diversification_ratio`. -/
structure PortfolioMetrics where
  portfolio_return : ℚ
  portfolio_volatility : ℚ
  sharpe : ℚ
  diversification : ℚ
  max_risk_contribution : ℚ
  min_risk_contribution : ℚ
  value_at_risk_95 : ℚ
  expected_shortfall : ℚ
  total_value : ℚ
  cash_position : ℚ
  deriving DecidableEq, Repr

/-- `get_portfolio_metrics` (source lines 281-319): `none` models the empty
dict returned for an asset-less portfolio; the diversification ratio is the
one guarded computation (`if portfolio_volatility > 0 else 1.0`). -/
def get_portfolio_metrics (s : ℚ → ℚ) (pf : Portfolio) : Option PortfolioMetrics :=
  if pf.assets = [] then none
  else
    let w := pf.assets.map (fun a => a.weight)
    let returns := pf.assets.map (fun a => a.expected_return)
    let vols := pf.assets.map (fun a => a.volatility)
    let cov := create_covariance_matrix pf
    let pret := dotQ w returns
    let pvol := s (dotQ w (matVec cov w))
    let marginal := matVec cov w
    let rc := (w.zip marginal).map (fun p => p.1 * p.2 / pvol)
    some { portfolio_return := pret,
           portfolio_volatility := pvol,
           sharpe := (pret - pf.risk_free_rate) / pvol,
           diversification := if 0 < pvol then dotQ w vols / pvol else 1,
           max_risk_contribution := rc.foldl max (rc.headD 0),
           min_risk_contribution := rc.foldl min (rc.headD 0),
           value_at_risk_95 := -pvol * (329/200) * pf.total_value,
           expected_shortfall := -pvol * (1163/500) * pf.total_value,
           total_value := pf.total_value,
           cash_position := pf.cash }

/-! ## stress_test_portfolio -/

/-- The hard-coded equity symbol list of `stress_test_portfolio` line 394. -/
def equitySymbols : List String :=
  [ "AAPL", "MSFT", "GOOGL", "AMZN", "TSLA", "NVDA", "META", "NFLX"]

/-- The growth-stock category list of `stress_test_portfolio` line 400. -/
def growthSymbols : List String := [ "TSLA", "NVDA", "AMZN", "NFLX"]

/-- The value-stock category list of `stress_test_portfolio` line 402. -/
def valueSymbols : List String := [ "AAPL", "MSFT", "GOOGL"]

/-- The shock multiplier selected for one asset by `stress_test_portfolio`
(source lines 391-403): `shock = 1.0` then the `if`/`elif` chain, in source
order: equity shock, global shock, per-symbol shock, growth category, value
category. -/
def assetShock (shocks : List (String × ℚ)) (sym : String) : ℚ :=
  if hasKey shocks "equity_shock" ∧ sym ∈ equitySymbols then
    1 * (1 + lookupD shocks "equity_shock" 0)
  else if hasKey shocks "global_shock" then
    1 * (1 + lookupD shocks "global_shock" 0)
  else if hasKey shocks sym then
    1 * (1 + lookupD shocks sym 0)
  else if hasKey shocks "growth_stocks" ∧ sym ∈ growthSymbols then
    1 * (1 + lookupD shocks "growth_stocks" 0)
  else if hasKey shocks "value_stocks" ∧ sym ∈ valueSymbols then
    1 * (1 + lookupD shocks "value_stocks" 0)
  else 1

/-- One scenario's stress result record (source lines 417-423). -/
structure StressResult where
  stressed_value : ℚ
  loss_amount : ℚ
  loss_percentage : ℚ
  stressed_volatility : ℚ
  survival_probability : ℚ
  deriving DecidableEq, Repr

/-- One scenario of `stress_test_portfolio` (source lines 385-423): the
per-asset delta accumulation on `stressed_value`, the squared stressed
volatilities, and the summary fields. -/
def stressScenario (s : ℚ → ℚ) (pf : Portfolio) (shocks : List (String × ℚ)) :
    StressResult :=
  let delta := fun (a : Asset) =>
    a.current_price * assetShock shocks a.symbol * a.weight * (pf.total_value / pf.total_value)
      - a.current_price * a.weight * (pf.total_value / pf.total_value)
  let stressedValue := pf.total_value + (pf.assets.map delta).sum
  let volMult := lookupD shocks "vol_increase" (lookupD shocks "vol_decrease" 1)
  let lossAmount := pf.total_value - stressedValue
  let lossPct := lossAmount / pf.total_value
  { stressed_value := stressedValue,
    loss_amount := lossAmount,
    loss_percentage := lossPct,
    stressed_volatility := s ((pf.assets.map (fun a => (a.volatility * volMult)^2)).sum),
    survival_probability := max 0 (1 - |lossPct|) }

/-- `stress_test_portfolio` (source lines 366-425) over an explicit scenario
map. -/
def stress_test (s : ℚ → ℚ) (pf : Portfolio)
    (scs : List (String × List (String × ℚ))) : List (String × StressResult) :=
  scs.map (fun p => (p.1, stressScenario s pf p.2))

/-- Modelled from the spec sentence behind claim C2 as amended: the shock
rule precedence actually implemented, written as an explicit first-match
rule list to compare against `assetShock`.  Rules in order: equity-wide
shock (for the hard-coded equity symbols), global shock, explicit
per-symbol shock, growth category, value category. -/
def shockSpecRules (shocks : List (String × ℚ)) (sym : String) : List (Bool × ℚ) :=
  [(hasKey shocks "equity_shock" && decide (sym ∈ equitySymbols), lookupD shocks "equity_shock" 0),
   (hasKey shocks "global_shock", lookupD shocks "global_shock" 0),
   (hasKey shocks sym, lookupD shocks sym 0),
   (hasKey shocks "growth_stocks" && decide (sym ∈ growthSymbols), lookupD shocks "growth_stocks" 0),
   (hasKey shocks "value_stocks" && decide (sym ∈ valueSymbols), lookupD shocks "value_stocks" 0)]

/-- First-match semantics over the rule list above: the shock multiplier is
`1 + value` of the first applicable rule, `1` when none applies. -/
def shockSpec (shocks : List (String × ℚ)) (sym : String) : ℚ :=
  match (shockSpecRules shocks sym).find? (fun r => r.1) with
  | some r => 1 + r.2
  | none => 1

/-! ## Derived quantities used by the claims -/

/-- The numerators `w_i * (Σw)_i` of the per-asset risk contributions; the
risk contribution itself divides by the portfolio volatility
`sqrt(varianceQ cov w)`, a common positive factor. -/
def rcNumerators (cov : List (List ℚ)) (w : List ℚ) : List ℚ :=
  (w.zip (matVec cov w)).map (fun p => p.1 * p.2)

/-- Maximum of a list of rationals (`np.max`). -/
def listMax (l : List ℚ) : ℚ := l.foldl max (l.headD 0)

/-- Minimum of a list of rationals (`np.min`). -/
def listMin (l : List ℚ) : ℚ := l.foldl min (l.headD 0)

/-- Numerator of the max-min spread of risk contributions at weights `w`:
the spread itself is `spreadNum cov w / sqrt (varianceQ cov w)`. -/
def spreadNum (cov : List (List ℚ)) (w : List ℚ) : ℚ :=
  listMax (rcNumerators cov w) - listMin (rcNumerators cov w)

/-- The portfolio variance `w^T Σ w`; the source's portfolio volatility is
its square root. -/
def varianceQ (cov : List (List ℚ)) (w : List ℚ) : ℚ :=
  dotQ w (matVec cov w)

/-- The source's `current_return` inside `_optimize_for_target_return`: the
expected return of the equal-weight allocation. -/
def equalWeightReturn (pf : Portfolio) : ℚ :=
  dotQ (List.replicate pf.assets.length (1/(pf.assets.length : ℚ)))
    (pf.assets.map (fun a => a.expected_return))

/-! ## Concrete fixture portfolios for counterexamples and witnesses -/

/-- A single-asset portfolio whose asset weight is 0.3 (asset weights need
not sum to 1 during construction, per the data-model invariants). -/
def pfSingle : Portfolio :=
  { name := "single", total_value := 100000, cash := 0,
    assets := [{ symbol := "A", current_price := 100, expected_return := 1/10,
                 volatility := 1/5, weight := 3/10 }],
    correlation_matrix := [(( "A", "A"), 1)] }

/-- The spec §8 reference two-asset portfolio: A (return 0.12, volatility
0.30), B (return 0.08, volatility 0.20), correlation 0.5, equal current
weights. -/
def pfRef : Portfolio :=
  { name := "ref", total_value := 100000, cash := 0,
    assets := [{ symbol := "A", current_price := 100, expected_return := 12/100,
                 volatility := 3/10, weight := 1/2 },
               { symbol := "B", current_price := 50, expected_return := 8/100,
                 volatility := 2/10, weight := 1/2 }],
    correlation_matrix :=
      [(( "A", "A"), 1), (( "A", "B"), 1/2), (( "B", "A"), 1/2), (( "B", "B"), 1)] }

/-- Two assets with positive volatilities 1 and 2 and slightly negative
correlation −0.1 (correlations may lie anywhere in [−1, 1]). -/
def pfC3 : Portfolio :=
  { name := "c3", total_value := 100000, cash := 0,
    assets := [{ symbol := "A", current_price := 100, expected_return := 1/10,
                 volatility := 1, weight := 1/2 },
               { symbol := "B", current_price := 100, expected_return := 1/10,
                 volatility := 2, weight := 1/2 }],
    correlation_matrix :=
      [(( "A", "A"), 1), (( "A", "B"), -(1/10)), (( "B", "A"), -(1/10)), (( "B", "B"), 1)] }

/-- Covariance matrix of `pfC3`. -/
def covC3 : List (List ℚ) := create_covariance_matrix pfC3

/-- Equal-weight start of the risk-parity loop on two assets. -/
def wInit2 : List ℚ := List.replicate 2 (1/2)

/-- The weights the risk-parity loop returns on `pfC3`. -/
def wFinalC3 : List ℚ :=
  optimize_risk_parity_loop sqrtQ covC3 (pfC3.assets.map (fun a => a.volatility))

/-- Covariance matrix of `pfRef`. -/
def covRef : List (List ℚ) := create_covariance_matrix pfRef

/-- The weights the risk-parity loop returns on `pfRef`. -/
def wFinalRef : List ℚ :=
  optimize_risk_parity_loop sqrtQ covRef (pfRef.assets.map (fun a => a.volatility))

/-- Two assets, one with negative volatility −0.2, the other with positive
volatility 0.1, equal expected returns 0.1. -/
def pfNegVol : Portfolio :=
  { name := "negvol", total_value := 100000, cash := 0,
    assets := [{ symbol := "A", current_price := 100, expected_return := 1/10,
                 volatility := -(1/5), weight := 1/2 },
               { symbol := "B", current_price := 100, expected_return := 1/10,
                 volatility := 1/10, weight := 1/2 }],
    correlation_matrix :=
      [(( "A", "A"), 1), (( "A", "B"), 1/2), (( "B", "A"), 1/2), (( "B", "B"), 1)] }

/-- Two assets whose volatilities are both exactly zero. -/
def pfZeroVol : Portfolio :=
  { name := "zerovol", total_value := 1000, cash := 0,
    assets := [{ symbol := "A", current_price := 10, expected_return := 1/10,
                 volatility := 0, weight := 1/2 },
               { symbol := "B", current_price := 20, expected_return := 1/20,
                 volatility := 0, weight := 1/2 }],
    correlation_matrix :=
      [(( "A", "A"), 1), (( "A", "B"), 1/2), (( "B", "A"), 1/2), (( "B", "B"), 1)] }

/-- A one-asset all-equity portfolio (symbol AAPL, full weight) for the
stress-test precedence counterexample. -/
def pfStress : Portfolio :=
  { name := "stress", total_value := 100, cash := 0,
    assets := [{ symbol := "AAPL", current_price := 100, expected_return := 1/10,
                 volatility := 1/4, weight := 1 }],
    correlation_matrix := [(( "AAPL", "AAPL"), 1)] }

/-- A scenario containing both an equity-wide shock (−30%) and an explicit
per-symbol shock for AAPL (−50%). -/
def bothShocks : List (String × ℚ) :=
  [( "equity_shock", -(3/10)), ( "AAPL", -(1/2))]

/-! ## Helper lemmas -/

theorem dictUpsert_of_fresh (d : List (String × ℚ)) (k : String) (v : ℚ)
    (h : ∀ p ∈ d, p.1 ≠ k) : dictUpsert d k v = d ++ [(k, v)] := by
  have hany : d.any (fun p => decide (p.1 = k)) = false := by
    simp only [List.any_eq_false, decide_eq_true_eq]
    exact h
  simp [dictUpsert, hany]

theorem foldl_dictUpsert_append (l : List (String × ℚ)) :
    ∀ acc : List (String × ℚ), (acc.map Prod.fst ++ l.map Prod.fst).Nodup →
      l.foldl (fun d p => dictUpsert d p.1 p.2) acc = acc ++ l := by
  induction l with
  | nil => intro acc _; simp
  | cons p t ih =>
    intro acc h
    simp only [List.map_cons] at h
    have hdisj : ∀ q ∈ acc, q.1 ≠ p.1 := by
      intro q hq hEq
      have hmem : q.1 ∈ acc.map Prod.fst := List.mem_map_of_mem _ hq
      exact (List.nodup_append.mp h).2.2 hmem (hEq ▸ List.mem_cons_self _ _)
    have hstep : List.foldl (fun d q => dictUpsert d q.1 q.2) acc (p :: t) =
        List.foldl (fun d q => dictUpsert d q.1 q.2) (acc ++ [(p.1, p.2)]) t := by
      rw [List.foldl_cons, dictUpsert_of_fresh _ _ _ hdisj]
    rw [hstep, ih (acc ++ [(p.1, p.2)]) (by simpa [List.append_assoc] using h)]
    simp

theorem dictOf_eq_self (l : List (String × ℚ)) (h : (l.map Prod.fst).Nodup) :
    dictOf l = l := by
  simpa [dictOf] using foldl_dictUpsert_append l [] (by simpa using h)

theorem mem_dictUpsert {p : String × ℚ} {d : List (String × ℚ)} {k : String} {v : ℚ}
    (h : p ∈ dictUpsert d k v) : p ∈ d ∨ p = (k, v) := by
  unfold dictUpsert at h
  split at h
  · rcases List.mem_map.mp h with ⟨q, hq, rfl⟩
    by_cases hk : q.1 = k
    · right; simp [hk]
    · left; simpa [hk] using hq
  · rcases List.mem_append.mp h with h1 | h1
    · exact Or.inl h1
    · right; simpa using h1

theorem mem_foldl_dictUpsert {p : String × ℚ} (l : List (String × ℚ)) :
    ∀ acc : List (String × ℚ),
      p ∈ l.foldl (fun d q => dictUpsert d q.1 q.2) acc → p ∈ acc ∨ p ∈ l := by
  induction l with
  | nil => intro acc h; simpa using h
  | cons q t ih =>
    intro acc h
    rcases ih (dictUpsert acc q.1 q.2) (by simpa using h) with h1 | h1
    · rcases mem_dictUpsert h1 with h2 | h2
      · exact Or.inl h2
      · right; simp [h2]
    · exact Or.inr (List.mem_cons_of_mem _ h1)

theorem mem_dictOf {p : String × ℚ} {l : List (String × ℚ)} (h : p ∈ dictOf l) :
    p ∈ l := by
  rcases mem_foldl_dictUpsert l [] h with h1 | h1
  · simp at h1
  · exact h1

theorem lookupD_asset_map (l : List Asset) (a : Asset) (d : ℚ)
    (h : (l.map (fun x => x.symbol)).Nodup) (ha : a ∈ l) :
    lookupD (l.map (fun x => (x.symbol, x.weight))) a.symbol d = a.weight := by
  induction l with
  | nil => cases ha
  | cons b t ih =>
    simp only [List.map_cons, List.nodup_cons] at h
    rcases List.mem_cons.mp ha with rfl | hat
    · simp [lookupD, List.find?_cons]
    · by_cases hb : b.symbol = a.symbol
      · exact absurd (hb ▸ List.mem_map_of_mem (fun x => x.symbol) hat) h.1
      · simpa [lookupD, List.find?_cons, hb] using ih h.2 hat

theorem sum_map_div (l : List ℚ) (c : ℚ) :
    (l.map (fun x => x / c)).sum = l.sum / c := by
  induction l with
  | nil => simp
  | cons a t ih => simp [ih, add_div]

theorem sum_map_normalize (l : List ℚ) (h : l.sum ≠ 0) :
    (l.map (fun x => x / l.sum)).sum = 1 := by
  rw [sum_map_div, div_self h]

theorem dotQ_eq_zero_left (a b : List ℚ) (h : ∀ x ∈ a, x = 0) : dotQ a b = 0 := by
  apply List.sum_eq_zero
  intro x hx
  rcases List.mem_map.mp hx with ⟨p, hp, rfl⟩
  rcases p with ⟨u, v⟩
  have := h u (List.of_mem_zip hp).1
  simp [this]

theorem dotQ_eq_zero_right (a b : List ℚ) (h : ∀ x ∈ b, x = 0) : dotQ a b = 0 := by
  apply List.sum_eq_zero
  intro x hx
  rcases List.mem_map.mp hx with ⟨p, hp, rfl⟩
  rcases p with ⟨u, v⟩
  have := h v (List.of_mem_zip hp).2
  simp [this]

theorem getD_eq_zero_of_all_zero (l : List ℚ) (i : Nat) (h : ∀ x ∈ l, x = 0) :
    l.getD i 0 = 0 := by
  rw [List.getD_eq_getElem?_getD]
  cases hi : l[i]? with
  | none => rfl
  | some x => exact h x (List.getElem?_mem hi)

theorem chaikin_empty_all_zero (closes volumes : List ℚ) (period : Nat) :
    ∀ x ∈ chaikin_money_flow [] [] closes volumes period, x = 0 := by
  intro x hx
  unfold chaikin_money_flow at hx
  split at hx
  · simp at hx
  · rcases List.mem_map.mp hx with ⟨k, _, rfl⟩
    unfold cmfAt
    simp [zero_div]

theorem chaikin_length (highs lows closes volumes : List ℚ) (period : Nat)
    (h : period ≤ closes.length) :
    (chaikin_money_flow highs lows closes volumes period).length =
      closes.length - (period - 1) := by
  unfold chaikin_money_flow
  rw [if_neg (by omega)]
  simp

/-! ## Claim theorems -/

/-- C7 (confirmed): for every portfolio with fewer than 2 assets and
distinct symbols, both `optimize_portfolio_mpt` and `optimize_risk_parity`
return the basic result: each asset keeps its current weight, expected
return and expected volatility are 0, and the recommendations are exactly
the single explanatory need-at-least-2-assets message. -/
theorem C7_degenerate_basic_result (s : ℚ → ℚ) (pf : Portfolio) (target : Option ℚ)
    (ra : ℚ) (hlen : pf.assets.length < 2)
    (hnd : (pf.assets.map (fun a => a.symbol)).Nodup) :
    ((optimize_portfolio_mpt s pf target ra).expected_return = 0 ∧
     (optimize_portfolio_mpt s pf target ra).expected_volatility = 0 ∧
     (optimize_portfolio_mpt s pf target ra).recommendations =
       [ "Need at least 2 assets for optimization"] ∧
     ∀ a ∈ pf.assets,
       lookupD (optimize_portfolio_mpt s pf target ra).optimized_weights a.symbol 0
         = a.weight) ∧
    ((optimize_risk_parity s pf).expected_return = 0 ∧
     (optimize_risk_parity s pf).expected_volatility = 0 ∧
     (optimize_risk_parity s pf).recommendations =
       [ "Need at least 2 assets for risk parity"] ∧
     ∀ a ∈ pf.assets,
       lookupD (optimize_risk_parity s pf).optimized_weights a.symbol 0 = a.weight) := by
  have hd : dictOf (pf.assets.map (fun a => (a.symbol, a.weight))) =
      pf.assets.map (fun a => (a.symbol, a.weight)) := by
    apply dictOf_eq_self
    simpa [List.map_map, Function.comp] using hnd
  have hmpt : optimize_portfolio_mpt s pf target ra =
      create_basic_result pf "Need at least 2 assets for optimization" := by
    unfold optimize_portfolio_mpt
    rw [if_pos hlen]
  have hrp : optimize_risk_parity s pf =
      create_basic_result pf "Need at least 2 assets for risk parity" := by
    unfold optimize_risk_parity
    rw [if_pos hlen]
  refine ⟨⟨?_, ?_, ?_, ?_⟩, ⟨?_, ?_, ?_, ?_⟩⟩ <;>
    simp only [hmpt, hrp, create_basic_result, hd] <;>
    first
      | rfl
      | (intro a ha; exact lookupD_asset_map _ _ _ hnd ha)

/-- C7 witness: the single-asset fixture portfolio. -/
theorem C7_witness :
    ((optimize_portfolio_mpt sqrtQ pfSingle none 1).expected_return = 0 ∧
     (optimize_portfolio_mpt sqrtQ pfSingle none 1).expected_volatility = 0 ∧
     (optimize_portfolio_mpt sqrtQ pfSingle none 1).recommendations =
       [ "Need at least 2 assets for optimization"] ∧
     ∀ a ∈ pfSingle.assets,
       lookupD (optimize_portfolio_mpt sqrtQ pfSingle none 1).optimized_weights a.symbol 0
         = a.weight) ∧
    ((optimize_risk_parity sqrtQ pfSingle).expected_return = 0 ∧
     (optimize_risk_parity sqrtQ pfSingle).expected_volatility = 0 ∧
     (optimize_risk_parity sqrtQ pfSingle).recommendations =
       [ "Need at least 2 assets for risk parity"] ∧
     ∀ a ∈ pfSingle.assets,
       lookupD (optimize_risk_parity sqrtQ pfSingle).optimized_weights a.symbol 0
         = a.weight) :=
  C7_degenerate_basic_result sqrtQ pfSingle none 1 (by decide) (by decide)

/-- C2 counterexample: in a scenario carrying both an equity-wide shock
(−30%) and an explicit per-symbol shock for AAPL (−50%), the code applies
the equity-wide shock (multiplier 0.7), not the per-symbol one (0.5): the
claimed per-symbol-first precedence fails. -/
theorem C2_counterexample :
    assetShock bothShocks "AAPL" = 7/10 ∧
    (stress_test sqrtQ pfStress [( "both", bothShocks)]).map
        (fun p => p.2.stressed_value) = [70] ∧
    (7 : ℚ)/10 ≠ 1 + (-(1/2) : ℚ) := by
  decide

/-- C2 (corrected): the shock actually selected per asset follows the
first-match precedence equity-wide shock (for the hard-coded equity
symbols) > global shock > explicit per-symbol shock > growth category >
value category, as captured by the rule list `shockSpec`. -/
theorem C2_amended_precedence (shocks : List (String × ℚ)) (sym : String) :
    assetShock shocks sym = shockSpec shocks sym := by
  by_cases h1 : hasKey shocks "equity_shock" = true <;>
  by_cases h2 : sym ∈ equitySymbols <;>
  by_cases h3 : hasKey shocks "global_shock" = true <;>
  by_cases h4 : hasKey shocks sym = true <;>
  by_cases h5 : hasKey shocks "growth_stocks" = true <;>
  by_cases h6 : sym ∈ growthSymbols <;>
  by_cases h7 : hasKey shocks "value_stocks" = true <;>
  by_cases h8 : sym ∈ valueSymbols <;>
  simp [assetShock, shockSpec, shockSpecRules, List.find?, h1, h2, h3, h4, h5, h6, h7, h8]

/-- C8 counterexample: `chaikin_money_flow` with mismatched input lengths
(empty highs/lows against 21 closes) silently computes a numeric result
from the zip-truncated (empty) money-flow windows instead of failing with
an error, and `on_balance_volume` with mismatched lengths silently returns
the empty list rather than raising. -/
theorem C8_counterexample :
    chaikin_money_flow [] [] (List.replicate 21 (1 : ℚ)) (List.replicate 21 1) 21 = [0] ∧
    (chaikin_money_flow [] [] (List.replicate 21 (1 : ℚ)) (List.replicate 21 1) 21 ≠ []) ∧
    on_balance_volume [(1 : ℚ), 2, 3] [1, 2] = [] := by
  decide

/-- C8 (corrected): neither of the two indicators the claim cites fails
fast with an error on mismatched lengths. `on_balance_volume` detects a
closes/volumes length mismatch but silently returns the empty no-signal
result, and `chaikin_money_flow` called with empty highs/lows (exactly how
`analyze_volume_indicators` calls it) silently zip-truncates every
money-flow window and returns a numerically computed all-zero result — a
value computed from truncated data rather than an error. (Nothing is
asserted here about the remaining indicators; some of them do raise on
other mismatch shapes.) -/
theorem C8_amended_no_error :
    (∀ closes volumes : List ℚ, closes.length ≠ volumes.length →
      on_balance_volume closes volumes = []) ∧
    (∀ closes volumes : List ℚ, ∀ period : Nat,
      ∀ x ∈ chaikin_money_flow [] [] closes volumes period, x = 0) := by
  refine ⟨?_, ?_⟩
  · intro closes volumes h
    unfold on_balance_volume
    rw [if_pos (Or.inl h)]
  · exact chaikin_empty_all_zero

/-- C8 witness: concrete mismatched inputs for both conjuncts. -/
theorem C8_witness :
    on_balance_volume [(1 : ℚ), 2, 3] [1, 2] = [] ∧
    (chaikin_money_flow [] [] (List.replicate 21 (1 : ℚ)) (List.replicate 21 1) 21).headD 7
      = 0 :=
  ⟨C8_amended_no_error.1 [(1 : ℚ), 2, 3] [1, 2] (by decide),
   C8_amended_no_error.2 (List.replicate 21 1) (List.replicate 21 1) 21 _
     (by decide)⟩

theorem obvResults_names (prices volumes : List ℚ) :
    ∀ r ∈ obvResults prices volumes, r.name = "OBV" := by
  intro r hr
  unfold obvResults at hr
  split at hr
  · dsimp only at hr
    split at hr
    · simp at hr
      simp [hr]
    · simp at hr
  · simp at hr

theorem cmfResults_of_zero (prices volumes : List ℚ) (h21 : 21 ≤ prices.length) :
    cmfResults prices volumes =
      [{ name := "CMF", value := 0, signal := "HOLD", strength := 1/2 }] := by
  have hz : ∀ x ∈ chaikin_money_flow [] [] prices volumes 21, x = 0 :=
    chaikin_empty_all_zero prices volumes 21
  have hcne : chaikin_money_flow [] [] prices volumes 21 ≠ [] := by
    have hl := chaikin_length [] [] prices volumes 21 (by omega)
    intro hempty
    rw [hempty] at hl
    simp at hl
    omega
  have hlast : (chaikin_money_flow [] [] prices volumes 21).getD
      ((chaikin_money_flow [] [] prices volumes 21).length - 1) 0 = 0 :=
    getD_eq_zero_of_all_zero _ _ hz
  unfold cmfResults
  rw [if_pos h21]
  dsimp only
  rw [if_pos hcne, hlast]
  norm_num

/-- C9 (confirmed): whenever `analyze_volume_indicators` runs on at least
21 prices with volumes of the same length, its CMF result exists and always
has value 0, signal HOLD and strength 0.5, because `chaikin_money_flow` is
called with empty highs/lows so every money-flow window zips to empty. -/
theorem C9_cmf_always_neutral (prices volumes : List ℚ) (h21 : 21 ≤ prices.length)
    (hlen : volumes.length = prices.length) :
    (∃ r ∈ analyze_volume_indicators prices volumes, r.name = "CMF") ∧
    ∀ r ∈ analyze_volume_indicators prices volumes, r.name = "CMF" →
      r.value = 0 ∧ r.signal = "HOLD" ∧ r.strength = 1/2 := by
  have hvne : volumes ≠ [] := by
    intro h
    rw [h] at hlen
    simp at hlen
    omega
  have hall : analyze_volume_indicators prices volumes =
      obvResults prices volumes ++ cmfResults prices volumes := by
    unfold analyze_volume_indicators
    rw [if_pos ⟨hvne, hlen⟩]
  rw [hall, cmfResults_of_zero prices volumes h21]
  constructor
  · exact ⟨_, List.mem_append_right _ (List.mem_singleton_self _), rfl⟩
  · intro r hr hname
    rcases List.mem_append.mp hr with h | h
    · have : ("OBV" : String) = "CMF" := by
        rw [← obvResults_names prices volumes r h, hname]
      simp at this
    · simp only [List.mem_singleton] at h
      subst h
      exact ⟨rfl, rfl, rfl⟩

/-- C9 witness: 21 constant prices and volumes. -/
theorem C9_witness :
    (∃ r ∈ analyze_volume_indicators (List.replicate 21 (1 : ℚ)) (List.replicate 21 1),
      r.name = "CMF") ∧
    ∀ r ∈ analyze_volume_indicators (List.replicate 21 (1 : ℚ)) (List.replicate 21 1),
      r.name = "CMF" → r.value = 0 ∧ r.signal = "HOLD" ∧ r.strength = 1/2 :=
  C9_cmf_always_neutral (List.replicate 21 1) (List.replicate 21 1) (by decide) (by decide)

theorem signalScore_abs_le_one (sig : String) : |signalScore sig| ≤ 1 := by
  unfold signalScore
  split_ifs <;> norm_num

theorem lookupD_nonneg {α : Type} [DecidableEq α] (l : List (α × ℚ)) (k : α) (d : ℚ)
    (hl : ∀ p ∈ l, 0 ≤ p.2) (hd : 0 ≤ d) : 0 ≤ lookupD l k d := by
  unfold lookupD
  cases hf : l.find? (fun p => decide (p.1 = k)) with
  | none => exact hd
  | some p => exact hl p (List.mem_of_find?_eq_some hf)

theorem abs_fst_sum_le_snd_sum (l : List (ℚ × ℚ)) (h : ∀ p ∈ l, |p.1| ≤ p.2) :
    |(l.map Prod.fst).sum| ≤ (l.map Prod.snd).sum := by
  induction l with
  | nil => simp
  | cons p t ih =>
    simp only [List.map_cons, List.sum_cons]
    calc |p.1 + (t.map Prod.fst).sum| ≤ |p.1| + |(t.map Prod.fst).sum| := abs_add _ _
    _ ≤ p.2 + (t.map Prod.snd).sum :=
      add_le_add (h p (List.mem_cons_self _ _)) (ih (fun q hq => h q (List.mem_cons_of_mem _ hq)))

theorem signalContribs_bound (analysis : List (String × List IndicatorResult))
    (weights : List (String × ℚ))
    (hstr : ∀ c ∈ analysis, ∀ r ∈ c.2, 0 ≤ r.strength ∧ r.strength ≤ 1)
    (hw : ∀ p ∈ weights, 0 ≤ p.2) :
    ∀ p ∈ signalContribs analysis weights, |p.1| ≤ p.2 := by
  intro p hp
  unfold signalContribs at hp
  rcases List.mem_flatMap.mp hp with ⟨cw, hcw, hp2⟩
  simp only at hp2
  rcases List.mem_map.mp hp2 with ⟨ind, hind, rfl⟩
  dsimp only
  have hW : 0 ≤ lookupD weights cw.1 ((1 : ℚ)/4) :=
    lookupD_nonneg _ _ _ hw (by norm_num)
  have hs := hstr cw hcw ind hind
  have h1 : |signalScore ind.signal| ≤ 1 := signalScore_abs_le_one _
  have habs : |signalScore ind.signal * ind.strength * lookupD weights cw.1 ((1 : ℚ)/4)|
      = |signalScore ind.signal| * ind.strength * lookupD weights cw.1 ((1 : ℚ)/4) := by
    rw [abs_mul, abs_mul, abs_of_nonneg hs.1, abs_of_nonneg hW]
  rw [habs]
  calc |signalScore ind.signal| * ind.strength * lookupD weights cw.1 ((1 : ℚ)/4)
      ≤ 1 * ind.strength * lookupD weights cw.1 ((1 : ℚ)/4) :=
        mul_le_mul_of_nonneg_right (mul_le_mul_of_nonneg_right h1 hs.1) hW
    _ = ind.strength * lookupD weights cw.1 ((1 : ℚ)/4) := by ring
    _ ≤ 1 * lookupD weights cw.1 ((1 : ℚ)/4) := mul_le_mul_of_nonneg_right hs.2 hW
    _ = lookupD weights cw.1 ((1 : ℚ)/4) := one_mul _

/-- C4 (confirmed): for analysis results whose strengths all lie in [0,1]
and any nonnegative weight mapping (the default included), the composite
signal's value lies in [−1,1] and its strength in [0,1]. -/
theorem C4_composite_signal_bounds (analysis : List (String × List IndicatorResult))
    (weights : List (String × ℚ))
    (hstr : ∀ c ∈ analysis, ∀ r ∈ c.2, 0 ≤ r.strength ∧ r.strength ≤ 1)
    (hw : ∀ p ∈ weights, 0 ≤ p.2) :
    -1 ≤ (get_weighted_signal analysis weights).value ∧
    (get_weighted_signal analysis weights).value ≤ 1 ∧
    0 ≤ (get_weighted_signal analysis weights).strength ∧
    (get_weighted_signal analysis weights).strength ≤ 1 := by
  have hbound := signalContribs_bound analysis weights hstr hw
  have hts : |((signalContribs analysis weights).map Prod.fst).sum| ≤
      ((signalContribs analysis weights).map Prod.snd).sum :=
    abs_fst_sum_le_snd_sum _ hbound
  have hval : (get_weighted_signal analysis weights).value =
      (if 0 < ((signalContribs analysis weights).map Prod.snd).sum then
        ((signalContribs analysis weights).map Prod.fst).sum /
          ((signalContribs analysis weights).map Prod.snd).sum
      else 0) := rfl
  have hvabs : |(get_weighted_signal analysis weights).value| ≤ 1 := by
    rw [hval]
    split_ifs with h0
    · rw [abs_div, abs_of_pos h0]
      exact (div_le_one h0).mpr hts
    · norm_num
  have hstrength : (get_weighted_signal analysis weights).strength =
      min 1 |(get_weighted_signal analysis weights).value| := rfl
  refine ⟨(abs_le.mp hvabs).1, (abs_le.mp hvabs).2, ?_, ?_⟩
  · rw [hstrength]
    exact le_min zero_le_one (abs_nonneg _)
  · rw [hstrength]
    exact min_le_left _ _

/-- C4 witness: one strong BUY trend indicator under the default weights. -/
theorem C4_witness :
    -1 ≤ (get_weighted_signal
        [( "trend", [{ name := "SMA_Crossover", value := 1, signal := "BUY",
                       strength := 4/5 }])] defaultWeights).value ∧
    (get_weighted_signal
        [( "trend", [{ name := "SMA_Crossover", value := 1, signal := "BUY",
                       strength := 4/5 }])] defaultWeights).value ≤ 1 ∧
    0 ≤ (get_weighted_signal
        [( "trend", [{ name := "SMA_Crossover", value := 1, signal := "BUY",
                       strength := 4/5 }])] defaultWeights).strength ∧
    (get_weighted_signal
        [( "trend", [{ name := "SMA_Crossover", value := 1, signal := "BUY",
                       strength := 4/5 }])] defaultWeights).strength ≤ 1 :=
  C4_composite_signal_bounds _ _ (by intro c hc r hr; fin_cases hc <;> fin_cases hr <;>
      constructor <;> norm_num)
    (by intro p hp; fin_cases hp <;> norm_num)

theorem getD_cov_row (pf : Portfolio) (i : Nat) (hi : i < pf.assets.length) :
    (create_covariance_matrix pf).getD i [] =
      (List.range pf.assets.length).map (covEntry pf i) := by
  unfold create_covariance_matrix
  rw [List.getD_eq_getElem?_getD, List.getElem?_map, List.getElem?_range hi]
  rfl

theorem diag_cov_entry (pf : Portfolio) (i : Nat) (hi : i < pf.assets.length) :
    ((create_covariance_matrix pf).getD i []).getD i 0 = covEntry pf i i := by
  rw [getD_cov_row pf i hi, List.getD_eq_getElem?_getD, List.getElem?_map,
    List.getElem?_range hi]
  rfl

theorem cov_length (pf : Portfolio) :
    (create_covariance_matrix pf).length = pf.assets.length := by
  unfold create_covariance_matrix
  simp

theorem diag_cov_length (pf : Portfolio) :
    (diagonal (create_covariance_matrix pf)).length = pf.assets.length := by
  unfold diagonal
  simp [cov_length]

theorem covEntry_self_mem_diag (pf : Portfolio) (i : Nat) (hi : i < pf.assets.length) :
    covEntry pf i i ∈ diagonal (create_covariance_matrix pf) := by
  unfold diagonal
  rw [cov_length pf]
  exact List.mem_map.mpr ⟨i, List.mem_range.mpr hi, diag_cov_entry pf i hi⟩

theorem assetAt_eq (pf : Portfolio) (i : Nat) (hi : i < pf.assets.length) :
    assetAt pf i = pf.assets[i] := by
  unfold assetAt
  rw [List.getD_eq_getElem?_getD, List.getElem?_eq_getElem hi]
  rfl

theorem sharpe_fallback_of_zero_vol (s : ℚ → ℚ) (pf : Portfolio) (a : Asset)
    (rf : ℚ) (ha : a ∈ pf.assets) (hv : a.volatility = 0) :
    optimize_sharpe s (pf.assets.map (fun x => x.expected_return))
        (create_covariance_matrix pf) rf =
      List.replicate (pf.assets.map (fun x => x.expected_return)).length
        (1/(((pf.assets.map (fun x => x.expected_return)).length : ℚ))) := by
  rcases List.mem_iff_getElem.mp ha with ⟨i, hi, hai⟩
  have hz : covEntry pf i i = 0 := by
    unfold covEntry
    rw [assetAt_eq pf i hi, hai, hv]
    ring
  unfold optimize_sharpe
  rw [if_pos]
  exact List.any_eq_true.mpr ⟨covEntry pf i i, covEntry_self_mem_diag pf i hi,
    by simp [hz]⟩

/-- C5 counterexample: a portfolio containing an asset with negative
volatility −0.2 does not trigger the equal-weight fallback (the covariance
diagonal entry is (−0.2)² = 1/25 > 0): `optimize_portfolio_mpt` with no
target returns weights (1/3, 2/3), not (1/2, 1/2).  The last four conjuncts
certify that the square-root stand-in is exact at the two points used. -/
theorem C5_counterexample :
    (pfNegVol.assets.map (fun a => a.volatility) = [-(1/5), 1/10]) ∧
    (optimize_portfolio_mpt sqrtQ pfNegVol none 1).optimized_weights =
      [( "A", 1/3), ( "B", 2/3)] ∧
    ((1 : ℚ)/3 ≠ 1/2) ∧
    sqrtQ (1/25) = 1/5 ∧ ((1 : ℚ)/5)^2 = 1/25 ∧
    sqrtQ (1/100) = 1/10 ∧ ((1 : ℚ)/10)^2 = 1/100 := by
  decide

/-- C5 (corrected): an asset with volatility exactly zero zeroes its
covariance diagonal entry, so `optimize_portfolio_mpt` with no target
falls back to equal weights: every optimized weight is 1/n.  (Negative
volatilities square to positive diagonal entries and do not trigger the
fallback: see the counterexample.) -/
theorem C5_amended_zero_vol_equal_weights (s : ℚ → ℚ) (pf : Portfolio) (ra : ℚ)
    (hn : 2 ≤ pf.assets.length) (a : Asset) (ha : a ∈ pf.assets)
    (hv : a.volatility = 0) :
    ∀ p ∈ (optimize_portfolio_mpt s pf none ra).optimized_weights,
      p.2 = 1/((pf.assets.length : ℚ)) := by
  intro p hp
  unfold optimize_portfolio_mpt at hp
  rw [if_neg (by omega)] at hp
  dsimp only at hp
  rw [sharpe_fallback_of_zero_vol s pf a pf.risk_free_rate ha hv] at hp
  simp only [List.length_map] at hp
  have hnQ : ((pf.assets.length : ℚ)) ≠ 0 := by
    have h0 : (0 : ℕ) < pf.assets.length := by omega
    exact_mod_cast h0.ne'
  have hsum : (List.replicate pf.assets.length (1/((pf.assets.length : ℚ)))).sum = 1 := by
    rw [List.sum_replicate, nsmul_eq_mul]
    field_simp
  rw [hsum, List.map_replicate] at hp
  rcases p with ⟨k, v⟩
  have hv2 : v ∈ List.replicate pf.assets.length ((1/((pf.assets.length : ℚ)))/1) :=
    (List.of_mem_zip (mem_dictOf hp)).2
  simpa [div_one] using List.eq_of_mem_replicate hv2

/-- C5 witness: the zero-volatility fixture portfolio (the head entry of
the optimized weight dict carries weight 1/n). -/
theorem C5_witness :
    ((optimize_portfolio_mpt sqrtQ pfZeroVol none 1).optimized_weights.headD ( "X", 7)).2
      = 1/((pfZeroVol.assets.length : ℚ)) :=
  C5_amended_zero_vol_equal_weights sqrtQ pfZeroVol 1 (by decide)
    { symbol := "A", current_price := 10, expected_return := 1/10,
      volatility := 0, weight := 1/2 }
    (by decide) rfl _ (by decide)

theorem default_asset_vol : (default : Asset).volatility = 0 := rfl

theorem covEntry_zero_of_all_zero_vol (pf : Portfolio)
    (h : ∀ a ∈ pf.assets, a.volatility = 0) (i j : Nat) : covEntry pf i j = 0 := by
  have hj : (assetAt pf j).volatility = 0 := by
    unfold assetAt
    rw [List.getD_eq_getElem?_getD]
    cases hjj : pf.assets[j]? with
    | none => exact default_asset_vol
    | some b => exact h b (List.getElem?_mem hjj)
  unfold covEntry
  rw [hj, mul_zero]

theorem variance_zero_of_all_zero_vol (pf : Portfolio)
    (h : ∀ a ∈ pf.assets, a.volatility = 0) (w : List ℚ) :
    dotQ w (matVec (create_covariance_matrix pf) w) = 0 := by
  apply dotQ_eq_zero_right
  intro x hx
  unfold matVec at hx
  rcases List.mem_map.mp hx with ⟨row, hrow, rfl⟩
  apply dotQ_eq_zero_left
  intro y hy
  unfold create_covariance_matrix at hrow
  rcases List.mem_map.mp hrow with ⟨i, _, rfl⟩
  rcases List.mem_map.mp hy with ⟨j, _, rfl⟩
  exact covEntry_zero_of_all_zero_vol pf h i j

/-- C6 counterexample: on a two-asset portfolio whose volatilities are all
zero, `optimize_portfolio_mpt` computes its diversification ratio by
unguarded division by the zero portfolio volatility (the expected
volatility, the denominator, is 0; the quotient is the junk value 0 here
and NaN in the Python execution, not the fallback constant 1.0), while
`get_portfolio_metrics` on the same portfolio takes its guarded fallback
1.0. -/
theorem C6_counterexample :
    (pfZeroVol.assets.map (fun a => a.volatility) = [0, 0]) ∧
    (optimize_portfolio_mpt sqrtQ pfZeroVol none 1).expected_volatility = 0 ∧
    (optimize_portfolio_mpt sqrtQ pfZeroVol none 1).diversification = 0 ∧
    ((optimize_portfolio_mpt sqrtQ pfZeroVol none 1).diversification ≠ 1) ∧
    (get_portfolio_metrics sqrtQ pfZeroVol).map (fun m => m.diversification) = some 1 := by
  decide

/-- C6 (corrected): with all asset volatilities zero and `s 0 = 0` (true of
the real square root), `get_portfolio_metrics` applies its explicit
fallback (diversification ratio 1.0), but `optimize_portfolio_mpt` has no
guard: its diversification-ratio denominator, the expected volatility, is
exactly 0, i.e. it divides by a zero portfolio volatility. -/
theorem C6_amended_metrics_guarded_mpt_not (s : ℚ → ℚ) (pf : Portfolio)
    (hs : s 0 = 0) (hne : pf.assets ≠ [])
    (h : ∀ a ∈ pf.assets, a.volatility = 0) :
    ((get_portfolio_metrics s pf).map (fun m => m.diversification) = some 1) ∧
    (2 ≤ pf.assets.length →
      (optimize_portfolio_mpt s pf none 1).expected_volatility = 0) := by
  constructor
  · unfold get_portfolio_metrics
    rw [if_neg hne]
    dsimp only [Option.map_some]
    rw [variance_zero_of_all_zero_vol pf h, hs]
    norm_num
  · intro hn
    unfold optimize_portfolio_mpt
    rw [if_neg (by omega)]
    dsimp only
    rw [variance_zero_of_all_zero_vol pf h, hs]

/-- C6 witness: the zero-volatility fixture portfolio. -/
theorem C6_witness :
    ((get_portfolio_metrics sqrtQ pfZeroVol).map (fun m => m.diversification) = some 1) ∧
    (2 ≤ pfZeroVol.assets.length →
      (optimize_portfolio_mpt sqrtQ pfZeroVol none 1).expected_volatility = 0) :=
  C6_amended_metrics_guarded_mpt_not sqrtQ pfZeroVol (by decide)
    (by decide) (by decide)

theorem target_return_weights (returns : List ℚ) (cov : List (List ℚ)) (t ra : ℚ)
    (hn : 1 ≤ returns.length)
    (ht : t ≠ 0 ∨
      dotQ (List.replicate returns.length (1/((returns.length : ℚ)))) returns ≤ 0) :
    optimize_for_target_return returns cov t ra =
      List.replicate returns.length (1/((returns.length : ℚ))) := by
  unfold optimize_for_target_return
  dsimp only
  have hnQ : ((returns.length : ℚ)) ≠ 0 := by
    have h0 : (0 : ℕ) < returns.length := hn
    exact_mod_cast h0.ne'
  have hsum0 : (List.replicate returns.length (1/((returns.length : ℚ)))).sum = 1 := by
    rw [List.sum_replicate, nsmul_eq_mul]
    field_simp
  by_cases hc :
      0 < dotQ (List.replicate returns.length (1/((returns.length : ℚ)))) returns
  · rw [if_pos hc]
    have htne : t ≠ 0 := by
      rcases ht with hx | hx
      · exact hx
      · exact absurd hc (not_lt.mpr hx)
    set q := dotQ (List.replicate returns.length (1/((returns.length : ℚ)))) returns
      with hq
    have hm : min (t / q) 2 ≠ 0 := by
      rcases min_choice (t / q) 2 with hmin | hmin <;> rw [hmin]
      · exact div_ne_zero htne (ne_of_gt hc)
      · norm_num
    rw [List.map_replicate]
    have hsum1 : (List.replicate returns.length
        ((1/((returns.length : ℚ))) * min (t / q) 2)).sum = min (t / q) 2 := by
      rw [List.sum_replicate, nsmul_eq_mul]
      field_simp
    rw [hsum1, List.map_replicate]
    congr 1
    rw [mul_div_assoc, div_self hm, mul_one]
  · rw [if_neg hc, hsum0, List.map_replicate]
    congr 1
    rw [div_one]

/-- C10 counterexample: with a target return of exactly 0 and a positive
equal-weight expected return, the scaling factor is 0, every weight is
zeroed, and both normalizations divide by a zero sum: the optimized
weights are not 1/n.  (In exact-rational semantics the junk quotient 0/0
is 0; the Python execution produces NaN weights — either way the weights
are not 1/n, refuting the claimed target-independence.) -/
theorem C10_counterexample :
    (optimize_portfolio_mpt sqrtQ pfRef (some 0) 1).optimized_weights =
      [( "A", 0), ( "B", 0)] ∧
    ((0 : ℚ) ≠ 1/2) ∧
    (0 : ℚ) < equalWeightReturn pfRef := by
  decide

/-- C10 (corrected): for every portfolio with at least 2 assets and every
nonzero target return (or any target when the equal-weight expected return
is nonpositive), the capped proportional scaling cancels against the final
renormalizations and every optimized weight equals 1/n, independent of the
target's value. -/
theorem C10_amended_target_weights (s : ℚ → ℚ) (pf : Portfolio) (t ra : ℚ)
    (hn : 2 ≤ pf.assets.length)
    (ht : t ≠ 0 ∨ equalWeightReturn pf ≤ 0) :
    ∀ p ∈ (optimize_portfolio_mpt s pf (some t) ra).optimized_weights,
      p.2 = 1/((pf.assets.length : ℚ)) := by
  intro p hp
  unfold optimize_portfolio_mpt at hp
  rw [if_neg (by omega)] at hp
  dsimp only at hp
  rw [target_return_weights (pf.assets.map (fun a => a.expected_return))
      (create_covariance_matrix pf) t ra (by simpa using by omega) ?ht2] at hp
  case ht2 =>
    simpa [equalWeightReturn, List.length_map] using ht
  simp only [List.length_map] at hp
  have hnQ : ((pf.assets.length : ℚ)) ≠ 0 := by
    have h0 : (0 : ℕ) < pf.assets.length := by omega
    exact_mod_cast h0.ne'
  have hsum : (List.replicate pf.assets.length (1/((pf.assets.length : ℚ)))).sum = 1 := by
    rw [List.sum_replicate, nsmul_eq_mul]
    field_simp
  rw [hsum, List.map_replicate] at hp
  rcases p with ⟨k, v⟩
  have hv2 : v ∈ List.replicate pf.assets.length ((1/((pf.assets.length : ℚ)))/1) :=
    (List.of_mem_zip (mem_dictOf hp)).2
  simpa [div_one] using List.eq_of_mem_replicate hv2

/-- C10 witness: the reference portfolio with the nonzero target 0.1. -/
theorem C10_witness :
    ((optimize_portfolio_mpt sqrtQ pfRef (some (1/10)) 1).optimized_weights.headD
      ( "X", 7)).2 = 1/((pfRef.assets.length : ℚ)) :=
  C10_amended_target_weights sqrtQ pfRef (1/10) 1 (by decide)
    (Or.inl (by norm_num)) _ (by decide)

theorem optimize_sharpe_length (s : ℚ → ℚ) (returns : List ℚ) (cov : List (List ℚ))
    (rf : ℚ) (hd : (diagonal cov).length = returns.length) :
    (optimize_sharpe s returns cov rf).length = returns.length := by
  unfold optimize_sharpe
  split
  · simp
  · simp [hd]

theorem optimize_sharpe_sum_one (s : ℚ → ℚ) (returns : List ℚ) (cov : List (List ℚ))
    (rf : ℚ) (hn : 1 ≤ returns.length) (hd : (diagonal cov).length = returns.length) :
    (optimize_sharpe s returns cov rf).sum = 1 := by
  have hnQ : ((returns.length : ℚ)) ≠ 0 := by
    have h0 : (0 : ℕ) < returns.length := hn
    exact_mod_cast h0.ne'
  unfold optimize_sharpe
  split
  · rw [List.sum_replicate, nsmul_eq_mul, mul_one_div, div_self hnQ]
  · apply sum_map_normalize
    apply ne_of_gt
    apply List.sum_pos
    · intro x hx
      rcases List.mem_map.mp hx with ⟨pq, _, rfl⟩
      calc (0 : ℚ) < 1/100 := by norm_num
        _ ≤ max (pq.1 / pq.2) (1/100) := le_max_right _ _
    · apply List.ne_nil_of_length_pos
      simp only [List.length_map, List.length_zip, hd]
      omega

theorem dict_values_sum_zip (symbols : List String) (w : List ℚ)
    (hnd : symbols.Nodup) (hlen : w.length = symbols.length) :
    dictValuesSum (dictOf (symbols.zip w)) = w.sum := by
  have hkeys : (symbols.zip w).map Prod.fst = symbols :=
    List.map_fst_zip _ _ (by omega)
  have hd : dictOf (symbols.zip w) = symbols.zip w :=
    dictOf_eq_self _ (by rw [hkeys]; exact hnd)
  rw [dictValuesSum, hd, List.map_snd_zip _ _ (by omega)]

theorem riskParityAdjust_length (s : ℚ → ℚ) (cov : List (List ℚ)) (n : Nat)
    (w : List ℚ) (hw : w.length = n) (hcov : cov.length = n) :
    (riskParityAdjust s cov n w).length = n := by
  unfold riskParityAdjust
  simp [matVec, hw, hcov]

theorem riskParityStep_length (s : ℚ → ℚ) (cov : List (List ℚ)) (n : Nat)
    (w : List ℚ) (hw : w.length = n) (hcov : cov.length = n) :
    (riskParityStep s cov n w).length = n := by
  unfold riskParityStep
  simp [riskParityAdjust_length s cov n w hw hcov]

theorem iterate_step_length (s : ℚ → ℚ) (cov : List (List ℚ)) (n : Nat)
    (w : List ℚ) (hw : w.length = n) (hcov : cov.length = n) (k : Nat) :
    ((riskParityStep s cov n)^[k] w).length = n := by
  induction k with
  | zero => simpa using hw
  | succ m ih =>
    rw [Function.iterate_succ_apply']
    exact riskParityStep_length s cov n _ ih hcov

/-- C1 counterexample: the degenerate fewer-than-2-assets path returns the
current weights unchanged; on a single-asset portfolio whose asset weight
is 0.3 both optimizers return optimized weights summing to 0.3, which
differs from 1.0 by far more than 1e-6. -/
theorem C1_counterexample :
    dictValuesSum (optimize_portfolio_mpt sqrtQ pfSingle none 1).optimized_weights
      = 3/10 ∧
    dictValuesSum (optimize_risk_parity sqrtQ pfSingle).optimized_weights = 3/10 ∧
    ¬ (|dictValuesSum (optimize_portfolio_mpt sqrtQ pfSingle none 1).optimized_weights
        - 1| < 1/1000000) := by
  decide

/-- C1 (corrected): on the non-degenerate path (at least 2 assets, distinct
symbols) the optimized weights sum to exactly 1 — for the max-Sharpe path
unconditionally, for the target-return path provided the scaling does not
zero every weight (target ≠ 0, or nonpositive equal-weight return), and
for risk parity provided the final iteration's pre-normalization sum is
nonzero.  The degenerate path returns the current weights unchanged,
which need not sum to 1 (see the counterexample). -/
theorem C1_amended_weight_sums (s : ℚ → ℚ) (pf : Portfolio) (ra : ℚ)
    (hn : 2 ≤ pf.assets.length)
    (hnd : (pf.assets.map (fun a => a.symbol)).Nodup) :
    (dictValuesSum (optimize_portfolio_mpt s pf none ra).optimized_weights = 1) ∧
    (∀ t : ℚ, (t ≠ 0 ∨ equalWeightReturn pf ≤ 0) →
      dictValuesSum (optimize_portfolio_mpt s pf (some t) ra).optimized_weights = 1) ∧
    ((riskParityAdjust s (create_covariance_matrix pf) pf.assets.length
        ((riskParityStep s (create_covariance_matrix pf) pf.assets.length)^[9]
          (List.replicate pf.assets.length (1/((pf.assets.length : ℚ)))))).sum ≠ 0 →
      dictValuesSum (optimize_risk_parity s pf).optimized_weights = 1) := by
  have hnQ : ((pf.assets.length : ℚ)) ≠ 0 := by
    have h0 : (0 : ℕ) < pf.assets.length := by omega
    exact_mod_cast h0.ne'
  refine ⟨?_, ?_, ?_⟩
  · unfold optimize_portfolio_mpt
    rw [if_neg (by omega)]
    dsimp only
    have hs1 : (optimize_sharpe s (pf.assets.map (fun a => a.expected_return))
        (create_covariance_matrix pf) pf.risk_free_rate).sum = 1 := by
      apply optimize_sharpe_sum_one
      · simp only [List.length_map]
        omega
      · rw [diag_cov_length]
        simp
    have hlen : (optimize_sharpe s (pf.assets.map (fun a => a.expected_return))
        (create_covariance_matrix pf) pf.risk_free_rate).length = pf.assets.length := by
      rw [optimize_sharpe_length]
      · simp
      · rw [diag_cov_length]
        simp
    rw [dict_values_sum_zip _ _ hnd (by simp [hlen])]
    apply sum_map_normalize
    rw [hs1]
    norm_num
  · intro t ht
    unfold optimize_portfolio_mpt
    rw [if_neg (by omega)]
    dsimp only
    rw [target_return_weights (pf.assets.map (fun a => a.expected_return))
        (create_covariance_matrix pf) t ra (by simp only [List.length_map]; omega)
        (by simpa [equalWeightReturn, List.length_map] using ht)]
    rw [dict_values_sum_zip _ _ hnd (by simp)]
    apply sum_map_normalize
    rw [List.sum_replicate, nsmul_eq_mul, List.length_map, mul_one_div, div_self hnQ]
    norm_num
  · intro hsum
    unfold optimize_risk_parity
    rw [if_neg (by omega)]
    dsimp only
    unfold optimize_risk_parity_loop
    dsimp only
    simp only [List.length_map]
    have hlen9 : ((riskParityStep s (create_covariance_matrix pf)
        pf.assets.length)^[9]
          (List.replicate pf.assets.length (1/((pf.assets.length : ℚ))))).length =
        pf.assets.length :=
      iterate_step_length s _ _ _ (by simp) (cov_length pf) 9
    have hstep : ∀ x : List ℚ,
        riskParityStep s (create_covariance_matrix pf) pf.assets.length x =
          (riskParityAdjust s (create_covariance_matrix pf) pf.assets.length x).map
            (fun y => y /
              (riskParityAdjust s (create_covariance_matrix pf) pf.assets.length x).sum) :=
      fun x => rfl
    rw [show (10 : ℕ) = 9 + 1 from rfl, Function.iterate_succ_apply', hstep]
    rw [dict_values_sum_zip _ _ hnd
        (by rw [List.length_map, riskParityAdjust_length s _ _ _ hlen9 (cov_length pf),
          List.length_map])]
    exact sum_map_normalize _ hsum

theorem div_sqrt_lt_div_sqrt (a b c d : ℚ) (hb : 0 < b) (hd : 0 < d)
    (ha : 0 ≤ a) (hc : 0 ≤ c) (h : a^2 * d < c^2 * b) :
    (a : ℝ) / Real.sqrt ((b : ℝ)) < (c : ℝ) / Real.sqrt ((d : ℝ)) := by
  have hb1 : (0 : ℝ) < (b : ℝ) := by exact_mod_cast hb
  have hd1 : (0 : ℝ) < (d : ℝ) := by exact_mod_cast hd
  have hbs : (0 : ℝ) < Real.sqrt ((b : ℝ)) := Real.sqrt_pos.mpr hb1
  have hds : (0 : ℝ) < Real.sqrt ((d : ℝ)) := Real.sqrt_pos.mpr hd1
  rw [div_lt_div_iff hbs hds]
  have ha1 : (0 : ℝ) ≤ (a : ℝ) := by exact_mod_cast ha
  have hc1 : (0 : ℝ) ≤ (c : ℝ) := by exact_mod_cast hc
  have h1 : (a : ℝ) * Real.sqrt ((d : ℝ)) = Real.sqrt (((a : ℝ))^2 * (d : ℝ)) := by
    rw [Real.sqrt_mul (by positivity), Real.sqrt_sq ha1]
  have h2 : (c : ℝ) * Real.sqrt ((b : ℝ)) = Real.sqrt (((c : ℝ))^2 * (b : ℝ)) := by
    rw [Real.sqrt_mul (by positivity), Real.sqrt_sq hc1]
  rw [h1, h2]
  apply Real.sqrt_lt_sqrt (by positivity)
  exact_mod_cast h

/-- Reindexing helper: mapping over `w.zip ((w.zip mv).map g)` is the same as
mapping a combined function over `w.zip mv`. -/
theorem zip_map_zip_reindex (g f h : ℚ × ℚ → ℚ)
    (hfg : ∀ p : ℚ × ℚ, f (p.1, g p) = h p) :
    ∀ (w mv : List ℚ), (w.zip ((w.zip mv).map g)).map f = (w.zip mv).map h := by
  intro w
  induction w with
  | nil => intro mv; rfl
  | cons a t ih =>
    intro mv
    cases mv with
    | nil => rfl
    | cons b tm =>
      simp only [List.zip_cons_cons, List.map_cons]
      rw [ih tm]
      congr 1
      exact hfg (a, b)

/-- The pre-normalization risk-parity update factors as the portfolio
volatility (the value of the square-root stand-in) times a list that does not
depend on the stand-in at all: entrywise, `w * ((1/n) / (w*mv/σ))` equals
`σ * (w * ((1/n) / (w*mv)))` in exact rational arithmetic (both sides are 0
when `w*mv = 0`, by the total-division convention). -/
theorem riskParityAdjust_scale (s : ℚ → ℚ) (cov : List (List ℚ)) (n : Nat) (w : List ℚ) :
    riskParityAdjust s cov n w =
      ((w.zip (matVec cov w)).map (fun p =>
        if p.1 * p.2 = 0 then 0 else p.1 * ((1/((n : ℚ))) / (p.1 * p.2)))).map
        (fun x => s (dotQ w (matVec cov w)) * x) := by
  have hdef : riskParityAdjust s cov n w =
      (w.zip ((w.zip (matVec cov w)).map
        (fun p => p.1 * p.2 / s (dotQ w (matVec cov w))))).map
        (fun p => p.1 * ((1/((n : ℚ))) / p.2)) := rfl
  rw [hdef, List.map_map]
  refine zip_map_zip_reindex _ _ _ (fun p => ?_) w (matVec cov w)
  dsimp only [Function.comp]
  by_cases hx : p.1 * p.2 = 0
  · simp [hx]
  · rw [if_neg hx, div_div_eq_mul_div]
    ring

theorem sum_map_mul_left_q (a : ℚ) (l : List ℚ) :
    (l.map (fun x => a * x)).sum = a * l.sum := by
  induction l with
  | nil => simp
  | cons x t ih => simp [ih, mul_add]

/-- Normalizing a list scaled by a nonzero constant gives the same result for
any nonzero constant: the scale cancels between numerator and sum. -/
theorem normalize_scale_eq (a b : ℚ) (ha : a ≠ 0) (hb : b ≠ 0) (l : List ℚ) :
    (l.map (fun x => a * x)).map (fun x => x / ((l.map (fun y => a * y)).sum)) =
      (l.map (fun x => b * x)).map (fun x => x / ((l.map (fun y => b * y)).sum)) := by
  rw [sum_map_mul_left_q a l, sum_map_mul_left_q b l, List.map_map, List.map_map]
  apply List.map_congr_left
  intro x hx
  dsimp only [Function.comp]
  by_cases hS : l.sum = 0
  · rw [hS, mul_zero, mul_zero, div_zero, div_zero]
  · rw [mul_div_mul_left x l.sum ha, mul_div_mul_left x l.sum hb]

/-- One normalized risk-parity iteration is independent of the square-root
stand-in, as long as the stand-in is nonzero on the current portfolio
variance: by `riskParityAdjust_scale` the stand-in value enters only as a
common scale factor, which `normalize_scale_eq` cancels. This is why the
exact-rational weight trajectories below also describe the floating-point
execution with the true square root. -/
theorem riskParityStep_s_irrelevant (s1 s2 : ℚ → ℚ) (cov : List (List ℚ)) (n : Nat)
    (w : List ℚ)
    (h1 : s1 (dotQ w (matVec cov w)) ≠ 0)
    (h2 : s2 (dotQ w (matVec cov w)) ≠ 0) :
    riskParityStep s1 cov n w = riskParityStep s2 cov n w := by
  have hstep : ∀ (s : ℚ → ℚ), riskParityStep s cov n w =
      (riskParityAdjust s cov n w).map
        (fun x => x / (riskParityAdjust s cov n w).sum) :=
    fun _ => rfl
  rw [hstep s1, hstep s2, riskParityAdjust_scale s1, riskParityAdjust_scale s2]
  exact normalize_scale_eq _ _ h1 h2 _

/-- The integer Heron iteration keeps its result at least 1 whenever the
guess is between 1 and `n`. -/
theorem sqrtIter_ge_one (fuel : Nat) : ∀ (n g : Nat), 1 ≤ g → g ≤ n →
    1 ≤ sqrtIter fuel n g := by
  induction fuel with
  | zero => intro n g hg _; simpa [sqrtIter] using hg
  | succ m ih =>
    intro n g hg hgn
    simp only [sqrtIter]
    split
    · apply ih
      · have h1 : 1 ≤ n / g := (Nat.one_le_div_iff (by omega)).mpr hgn
        omega
      · have h2 : n / g ≤ n := Nat.div_le_self n g
        omega
    · exact hg

theorem natSqrt_ge_one (n : Nat) (h : 1 ≤ n) : 1 ≤ natSqrt n := by
  unfold natSqrt
  split
  · omega
  · exact sqrtIter_ge_one 128 n (n / 2) (by omega) (Nat.div_le_self n 2)

/-- The concrete square-root stand-in is nonzero on every positive rational,
i.e. it is admissible for `riskParityStep_s_irrelevant`. -/
theorem sqrtQ_ne_zero_of_pos (q : ℚ) (h : 0 < q) : sqrtQ q ≠ 0 := by
  unfold sqrtQ
  rw [if_neg (not_le.mpr h)]
  apply div_ne_zero
  · have hn : 0 < q.num := Rat.num_pos.mpr h
    have h2 : 1 ≤ natSqrt q.num.toNat := natSqrt_ge_one _ (by omega)
    exact Nat.cast_ne_zero.mpr (by omega)
  · have h3 : 1 ≤ natSqrt q.den := natSqrt_ge_one _ q.pos
    exact Nat.cast_ne_zero.mpr (by omega)

/-- On the `pfC3` portfolio the 10-iteration risk-parity loop returns the
same weights for EVERY square-root stand-in that is nonzero on positive
rationals (in particular for the true square root, whose value is positive
there): at each of the 10 iterations the current portfolio variance is
positive, so `riskParityStep_s_irrelevant` applies step by step. The C3
counterexample about `wFinalC3` therefore does not depend on the choice of
`sqrtQ`. -/
theorem loopC3_any_sqrt (s : ℚ → ℚ) (hs : ∀ q, 0 < q → s q ≠ 0) :
    optimize_risk_parity_loop s covC3 (pfC3.assets.map (fun a => a.volatility)) =
      wFinalC3 := by
  have e1 : riskParityStep s covC3 2 [(1/2 : ℚ), (1/2 : ℚ)] =
      [(19/23 : ℚ), (4/23 : ℚ)] := by
    rw [riskParityStep_s_irrelevant s sqrtQ covC3 2 [(1/2 : ℚ), (1/2 : ℚ)]
      (hs _ (by decide)) (sqrtQ_ne_zero_of_pos _ (by decide))]
    decide
  have e2 : riskParityStep s covC3 2 [(19/23 : ℚ), (4/23 : ℚ)] =
      [(61/152 : ℚ), (91/152 : ℚ)] := by
    rw [riskParityStep_s_irrelevant s sqrtQ covC3 2 [(19/23 : ℚ), (4/23 : ℚ)]
      (hs _ (by decide)) (sqrtQ_ne_zero_of_pos _ (by decide))]
    decide
  have e3 : riskParityStep s covC3 2 [(61/152 : ℚ), (91/152 : ℚ)] =
      [(1759/1973 : ℚ), (214/1973 : ℚ)] := by
    rw [riskParityStep_s_irrelevant s sqrtQ covC3 2 [(61/152 : ℚ), (91/152 : ℚ)]
      (hs _ (by decide)) (sqrtQ_ne_zero_of_pos _ (by decide))]
    decide
  have e4 : riskParityStep s covC3 2 [(1759/1973 : ℚ), (214/1973 : ℚ)] =
      [(2521/11102 : ℚ), (8581/11102 : ℚ)] := by
    rw [riskParityStep_s_irrelevant s sqrtQ covC3 2 [(1759/1973 : ℚ), (214/1973 : ℚ)]
      (hs _ (by decide)) (sqrtQ_ne_zero_of_pos _ (by decide))]
    decide
  have e5 : riskParityStep s covC3 2 [(2521/11102 : ℚ), (8581/11102 : ℚ)] =
      [(169099/173123 : ℚ), (4024/173123 : ℚ)] := by
    rw [riskParityStep_s_irrelevant s sqrtQ covC3 2 [(2521/11102 : ℚ), (8581/11102 : ℚ)]
      (hs _ (by decide)) (sqrtQ_ne_zero_of_pos _ (by decide))]
    decide
  have e6 : riskParityStep s covC3 2 [(169099/173123 : ℚ), (4024/173123 : ℚ)] =
      [(-(88619/752852) : ℚ), (841471/752852 : ℚ)] := by
    rw [riskParityStep_s_irrelevant s sqrtQ covC3 2 [(169099/173123 : ℚ), (4024/173123 : ℚ)]
      (hs _ (by decide)) (sqrtQ_ne_zero_of_pos _ (by decide))]
    decide
  have e7 : riskParityStep s covC3 2 [(-(88619/752852) : ℚ), (841471/752852 : ℚ)] =
      [(16918039/15633473 : ℚ), (-(1284566/15633473) : ℚ)] := by
    rw [riskParityStep_s_irrelevant s sqrtQ covC3 2 [(-(88619/752852) : ℚ), (841471/752852 : ℚ)]
      (hs _ (by decide)) (sqrtQ_ne_zero_of_pos _ (by decide))]
    decide
  have e8 : riskParityStep s covC3 2 [(16918039/15633473 : ℚ), (-(1284566/15633473) : ℚ)] =
      [(-(42609359/43265402) : ℚ), (85874761/43265402 : ℚ)] := by
    rw [riskParityStep_s_irrelevant s sqrtQ covC3 2 [(16918039/15633473 : ℚ), (-(1284566/15633473) : ℚ)]
      (hs _ (by decide)) (sqrtQ_ne_zero_of_pos _ (by decide))]
    decide
  have e9 : riskParityStep s covC3 2 [(-(42609359/43265402) : ℚ), (85874761/43265402 : ℚ)] =
      [(1760104579/1461183023 : ℚ), (-(298921556/1461183023) : ℚ)] := by
    rw [riskParityStep_s_irrelevant s sqrtQ covC3 2 [(-(42609359/43265402) : ℚ), (85874761/43265402 : ℚ)]
      (hs _ (by decide)) (sqrtQ_ne_zero_of_pos _ (by decide))]
    decide
  have e10 : riskParityStep s covC3 2 [(1760104579/1461183023 : ℚ), (-(298921556/1461183023) : ℚ)] =
      [(-(7738535699/1360908752) : ℚ), (9099444451/1360908752 : ℚ)] := by
    rw [riskParityStep_s_irrelevant s sqrtQ covC3 2 [(1760104579/1461183023 : ℚ), (-(298921556/1461183023) : ℚ)]
      (hs _ (by decide)) (sqrtQ_ne_zero_of_pos _ (by decide))]
    decide
  have p1 : (riskParityStep s covC3 2)^[1] [(1/2 : ℚ), (1/2 : ℚ)] = [(19/23 : ℚ), (4/23 : ℚ)] := by
    rw [Function.iterate_one]
    exact e1
  have p2 : (riskParityStep s covC3 2)^[2] [(1/2 : ℚ), (1/2 : ℚ)] = [(61/152 : ℚ), (91/152 : ℚ)] := by
    rw [show (riskParityStep s covC3 2)^[2] [(1/2 : ℚ), (1/2 : ℚ)] =
        (riskParityStep s covC3 2) ((riskParityStep s covC3 2)^[1] [(1/2 : ℚ), (1/2 : ℚ)]) from
      Function.iterate_succ_apply' (riskParityStep s covC3 2) 1 [(1/2 : ℚ), (1/2 : ℚ)], p1]
    exact e2
  have p3 : (riskParityStep s covC3 2)^[3] [(1/2 : ℚ), (1/2 : ℚ)] = [(1759/1973 : ℚ), (214/1973 : ℚ)] := by
    rw [show (riskParityStep s covC3 2)^[3] [(1/2 : ℚ), (1/2 : ℚ)] =
        (riskParityStep s covC3 2) ((riskParityStep s covC3 2)^[2] [(1/2 : ℚ), (1/2 : ℚ)]) from
      Function.iterate_succ_apply' (riskParityStep s covC3 2) 2 [(1/2 : ℚ), (1/2 : ℚ)], p2]
    exact e3
  have p4 : (riskParityStep s covC3 2)^[4] [(1/2 : ℚ), (1/2 : ℚ)] = [(2521/11102 : ℚ), (8581/11102 : ℚ)] := by
    rw [show (riskParityStep s covC3 2)^[4] [(1/2 : ℚ), (1/2 : ℚ)] =
        (riskParityStep s covC3 2) ((riskParityStep s covC3 2)^[3] [(1/2 : ℚ), (1/2 : ℚ)]) from
      Function.iterate_succ_apply' (riskParityStep s covC3 2) 3 [(1/2 : ℚ), (1/2 : ℚ)], p3]
    exact e4
  have p5 : (riskParityStep s covC3 2)^[5] [(1/2 : ℚ), (1/2 : ℚ)] = [(169099/173123 : ℚ), (4024/173123 : ℚ)] := by
    rw [show (riskParityStep s covC3 2)^[5] [(1/2 : ℚ), (1/2 : ℚ)] =
        (riskParityStep s covC3 2) ((riskParityStep s covC3 2)^[4] [(1/2 : ℚ), (1/2 : ℚ)]) from
      Function.iterate_succ_apply' (riskParityStep s covC3 2) 4 [(1/2 : ℚ), (1/2 : ℚ)], p4]
    exact e5
  have p6 : (riskParityStep s covC3 2)^[6] [(1/2 : ℚ), (1/2 : ℚ)] = [(-(88619/752852) : ℚ), (841471/752852 : ℚ)] := by
    rw [show (riskParityStep s covC3 2)^[6] [(1/2 : ℚ), (1/2 : ℚ)] =
        (riskParityStep s covC3 2) ((riskParityStep s covC3 2)^[5] [(1/2 : ℚ), (1/2 : ℚ)]) from
      Function.iterate_succ_apply' (riskParityStep s covC3 2) 5 [(1/2 : ℚ), (1/2 : ℚ)], p5]
    exact e6
  have p7 : (riskParityStep s covC3 2)^[7] [(1/2 : ℚ), (1/2 : ℚ)] = [(16918039/15633473 : ℚ), (-(1284566/15633473) : ℚ)] := by
    rw [show (riskParityStep s covC3 2)^[7] [(1/2 : ℚ), (1/2 : ℚ)] =
        (riskParityStep s covC3 2) ((riskParityStep s covC3 2)^[6] [(1/2 : ℚ), (1/2 : ℚ)]) from
      Function.iterate_succ_apply' (riskParityStep s covC3 2) 6 [(1/2 : ℚ), (1/2 : ℚ)], p6]
    exact e7
  have p8 : (riskParityStep s covC3 2)^[8] [(1/2 : ℚ), (1/2 : ℚ)] = [(-(42609359/43265402) : ℚ), (85874761/43265402 : ℚ)] := by
    rw [show (riskParityStep s covC3 2)^[8] [(1/2 : ℚ), (1/2 : ℚ)] =
        (riskParityStep s covC3 2) ((riskParityStep s covC3 2)^[7] [(1/2 : ℚ), (1/2 : ℚ)]) from
      Function.iterate_succ_apply' (riskParityStep s covC3 2) 7 [(1/2 : ℚ), (1/2 : ℚ)], p7]
    exact e8
  have p9 : (riskParityStep s covC3 2)^[9] [(1/2 : ℚ), (1/2 : ℚ)] = [(1760104579/1461183023 : ℚ), (-(298921556/1461183023) : ℚ)] := by
    rw [show (riskParityStep s covC3 2)^[9] [(1/2 : ℚ), (1/2 : ℚ)] =
        (riskParityStep s covC3 2) ((riskParityStep s covC3 2)^[8] [(1/2 : ℚ), (1/2 : ℚ)]) from
      Function.iterate_succ_apply' (riskParityStep s covC3 2) 8 [(1/2 : ℚ), (1/2 : ℚ)], p8]
    exact e9
  have p10 : (riskParityStep s covC3 2)^[10] [(1/2 : ℚ), (1/2 : ℚ)] = [(-(7738535699/1360908752) : ℚ), (9099444451/1360908752 : ℚ)] := by
    rw [show (riskParityStep s covC3 2)^[10] [(1/2 : ℚ), (1/2 : ℚ)] =
        (riskParityStep s covC3 2) ((riskParityStep s covC3 2)^[9] [(1/2 : ℚ), (1/2 : ℚ)]) from
      Function.iterate_succ_apply' (riskParityStep s covC3 2) 9 [(1/2 : ℚ), (1/2 : ℚ)], p9]
    exact e10
  have hfin : wFinalC3 =
      [(-(7738535699/1360908752) : ℚ), (9099444451/1360908752 : ℚ)] := by
    decide
  show (riskParityStep s covC3 2)^[10] [(1/2 : ℚ), (1/2 : ℚ)] = wFinalC3
  rw [p10, hfin]

/-- C3 counterexample: on a two-asset portfolio with positive volatilities
1 and 2 and correlation −0.1 (within the documented [−1, 1] range), the
risk-contribution spread after the 10 fixed risk-parity iterations is
strictly larger than at the initial equal-weight allocation, refuting the
claimed spread reduction.  (The returned weights are independent of the
square-root stand-in: the portfolio-volatility factor cancels inside each
normalized iteration; `riskParityStep_s_irrelevant` proves this, and
`loopC3_any_sqrt` shows the loop returns `wFinalC3` for every admissible
stand-in.) -/
theorem C3_counterexample :
    pfC3.assets.map (fun a => a.volatility) = [(1 : ℚ), (2 : ℚ)] ∧
    (0 : ℚ) < varianceQ covC3 wInit2 ∧
    (0 : ℚ) < varianceQ covC3 wFinalC3 ∧
    ((spreadNum covC3 wInit2 : ℚ) : ℝ) / Real.sqrt (((varianceQ covC3 wInit2 : ℚ) : ℝ)) <
      ((spreadNum covC3 wFinalC3 : ℚ) : ℝ) /
        Real.sqrt (((varianceQ covC3 wFinalC3 : ℚ) : ℝ)) := by
  refine ⟨by decide, by decide, by decide, ?_⟩
  apply div_sqrt_lt_div_sqrt
  · decide
  · decide
  · decide
  · decide
  · decide

theorem riskParityStep_fixed (s : ℚ → ℚ) (cov : List (List ℚ)) (n : Nat) (c : ℚ)
    (hn : 1 ≤ n) (hcov : cov.length = n)
    (hc : ∀ x ∈ rcNumerators cov (List.replicate n (1/((n : ℚ)))), x = c)
    (hc0 : c ≠ 0)
    (hs : s (varianceQ cov (List.replicate n (1/((n : ℚ))))) ≠ 0) :
    riskParityStep s cov n (List.replicate n (1/((n : ℚ)))) =
      List.replicate n (1/((n : ℚ))) := by
  have hnQ : ((n : ℚ)) ≠ 0 := by
    have h0 : (0 : ℕ) < n := hn
    exact_mod_cast h0.ne'
  unfold varianceQ at hs
  have hadj : ∀ x ∈ riskParityAdjust s cov n (List.replicate n (1/((n : ℚ)))),
      x = (1/((n : ℚ))) * ((1/((n : ℚ))) /
        (c / s (dotQ (List.replicate n (1/((n : ℚ))))
          (matVec cov (List.replicate n (1/((n : ℚ)))))))) := by
    intro x hx
    unfold riskParityAdjust at hx
    rcases List.mem_map.mp hx with ⟨p, hp, rfl⟩
    have hp1 : p.1 = 1/((n : ℚ)) := List.eq_of_mem_replicate (List.of_mem_zip hp).1
    rcases List.mem_map.mp (List.of_mem_zip hp).2 with ⟨q, hq, hq2⟩
    have hqn : q.1 * q.2 = c := hc _ (List.mem_map_of_mem (fun r => r.1 * r.2) hq)
    rw [hp1, ← hq2]
    try dsimp only
    rw [hqn]
  have hlen : (riskParityAdjust s cov n (List.replicate n (1/((n : ℚ))))).length = n :=
    riskParityAdjust_length s cov n _ (by simp) hcov
  have hrepl : riskParityAdjust s cov n (List.replicate n (1/((n : ℚ)))) =
      List.replicate n ((1/((n : ℚ))) * ((1/((n : ℚ))) /
        (c / s (dotQ (List.replicate n (1/((n : ℚ))))
          (matVec cov (List.replicate n (1/((n : ℚ))))))))) :=
    List.eq_replicate.mpr ⟨hlen, hadj⟩
  have hm0 : (1/((n : ℚ))) * ((1/((n : ℚ))) /
      (c / s (dotQ (List.replicate n (1/((n : ℚ))))
        (matVec cov (List.replicate n (1/((n : ℚ)))))))) ≠ 0 := by
    apply mul_ne_zero (one_div_ne_zero hnQ)
    exact div_ne_zero (one_div_ne_zero hnQ) (div_ne_zero hc0 hs)
  unfold riskParityStep
  rw [hrepl, List.map_replicate, List.sum_replicate, nsmul_eq_mul]
  congr 1
  rw [mul_comm ((n : ℚ)), div_mul_eq_div_div, div_self hm0]

/-- C3 (corrected): the universal spread-reduction property fails (see the
counterexample), but two nearby statements hold: (a) when the equal-weight
risk contributions are already all equal (and nonzero, with nonzero
portfolio volatility), the loop is stationary, so the spread is preserved;
(b) on the spec §8 reference two-asset portfolio (volatilities 0.30/0.20,
correlation 0.5) the 10 iterations strictly shrink the spread. -/
theorem C3_amended_spread :
    (∀ (s : ℚ → ℚ) (cov : List (List ℚ)) (vols : List ℚ) (c : ℚ),
      1 ≤ vols.length → cov.length = vols.length →
      (∀ x ∈ rcNumerators cov
        (List.replicate vols.length (1/((vols.length : ℚ)))), x = c) →
      c ≠ 0 →
      s (varianceQ cov (List.replicate vols.length (1/((vols.length : ℚ))))) ≠ 0 →
      optimize_risk_parity_loop s cov vols =
        List.replicate vols.length (1/((vols.length : ℚ)))) ∧
    ((spreadNum covRef wFinalRef : ℚ) : ℝ) /
        Real.sqrt (((varianceQ covRef wFinalRef : ℚ) : ℝ)) <
      ((spreadNum covRef wInit2 : ℚ) : ℝ) /
        Real.sqrt (((varianceQ covRef wInit2 : ℚ) : ℝ)) := by
  constructor
  · intro s cov vols c hn hcov hc hc0 hs
    unfold optimize_risk_parity_loop
    dsimp only
    exact Function.iterate_fixed
      (riskParityStep_fixed s cov vols.length c hn hcov hc hc0 hs) 10
  · apply div_sqrt_lt_div_sqrt
    · decide
    · decide
    · decide
    · decide
    · decide

/-- C3 witness: a symmetric two-asset portfolio (equal volatilities,
correlation 0.6) whose equal-weight allocation is already at risk parity:
the loop returns it unchanged. -/
theorem C3_witness :
    optimize_risk_parity_loop sqrtQ [[(1 : ℚ), (3/5 : ℚ)], [(3/5 : ℚ), (1 : ℚ)]]
        [(1 : ℚ), (1 : ℚ)] =
      List.replicate ([(1 : ℚ), (1 : ℚ)].length)
        (1/((([(1 : ℚ), (1 : ℚ)].length : ℕ) : ℚ))) :=
  C3_amended_spread.1 sqrtQ [[(1 : ℚ), (3/5 : ℚ)], [(3/5 : ℚ), (1 : ℚ)]]
    [(1 : ℚ), (1 : ℚ)] (2/5) (by decide) (by decide)
    (by decide) (by norm_num) (by decide)


/-- C1 witness: the reference two-asset portfolio, on all three paths. -/
theorem C1_witness :
    dictValuesSum (optimize_portfolio_mpt sqrtQ pfRef none 1).optimized_weights = 1 ∧
    dictValuesSum
      (optimize_portfolio_mpt sqrtQ pfRef (some (1/10)) 1).optimized_weights = 1 ∧
    dictValuesSum (optimize_risk_parity sqrtQ pfRef).optimized_weights = 1 :=
  ⟨(C1_amended_weight_sums sqrtQ pfRef 1 (by decide) (by decide)).1,
   (C1_amended_weight_sums sqrtQ pfRef 1 (by decide) (by decide)).2.1 (1/10)
     (Or.inl (by norm_num)),
   (C1_amended_weight_sums sqrtQ pfRef 1 (by decide) (by decide)).2.2 (by decide)⟩

end HackingCapital
